import Mathlib

/-!
Verification of the daNomNoms food-delivery backend.

This file gives a shallow embedding, in Lean 4, of the parts of the
repository that the specification's testable properties talk about:

* the numeric-from-text parsers (`src/services/restaurant_service.py`,
  `src/models.py`),
* the cart / cost-estimate / receipt pricing pipeline
  (`src/services/restaurant_service.py`),
* receipt-id generation (`generate_receipt_id`),
* restaurant/item name resolution (`src/database.py`, `src/routers/agent.py`),
* the tool dispatcher `execute_function_call` and the orchestration loop of
  `agent_chat` (`src/routers/agent.py`), and
* conversation-history trimming (`trim_conversation_history`).

Modelling conventions, used throughout:

* Python floats are modelled as exact rationals (`ℚ`).  `round(x, 2)` is
  modelled by `round2` below (round half away from zero at the second
  decimal; no tie arises in any concrete computation proved here, so the
  difference from Python's float banker's rounding is not observable in
  these theorems).
* MongoDB collections are modelled as Lean lists in insertion order;
  `find_one` is `List.find?` (first match in store order), `$in` filters in
  collection order, and `insert_one` appends.  `ObjectId` values are
  modelled as plain strings: a malformed id is simply an id that matches no
  document, which produces the same observable outcome (not found).
* Loosely-typed document fields that hold either a number or free text are
  modelled by the sum type `FieldVal`.
* `None`-able values are `Option`; Python truthiness on strings/ints
  (`if not x`) is modelled explicitly where the source relies on it.
* External effects (the DoorDash HTTP client, the OpenAI chat-completion
  call, the wall clock) are parameters of the embedded functions.
-/

namespace DaNomNoms

/-- Decimal value of a list of digit characters, folding left to right
(the value of a regex match such as `"016"` is `16`). -/
def valDigits (ds : List Char) : Nat :=
  ds.foldl (fun a c => a * 10 + (c.toNat - 48)) 0

/-- First decimal number in a character stream, scanning left to right:
the digits of the match of `re.search(r'(\d+\.?\d*)', value)` — a maximal
digit run, optionally followed by a dot and a further digit run.  Returns
(integer part, fractional digits value, fractional digit count). -/
def firstNumberParts : List Char → Option (Nat × Nat × Nat)
  | [] => Option.none
  | c :: rest =>
    if c.isDigit then
      let intRun := (c :: rest).takeWhile Char.isDigit
      let t := (c :: rest).dropWhile Char.isDigit
      match t with
      | '.' :: t2 =>
        let frac := t2.takeWhile Char.isDigit
        Option.some (valDigits intRun, valDigits frac, frac.length)
      | _ => Option.some (valDigits intRun, 0, 0)
    else firstNumberParts rest

/-- The rational denoted by a regex number match (Python `float(...)` of the
matched text, exactly). -/
def ratOfParts (p : Nat × Nat × Nat) : ℚ := (p.1 : ℚ) + (p.2.1 : ℚ) / (10 : ℚ) ^ p.2.2

/-- `float(...)` of the first decimal number found in a character stream. -/
def firstNumber (l : List Char) : Option ℚ := (firstNumberParts l).map ratOfParts

/-- First plain integer in a character stream: the embedding of
`re.search(r'(\d+)', value)`. -/
def firstInt : List Char → Option Nat
  | [] => Option.none
  | c :: rest =>
    if c.isDigit then Option.some (valDigits ((c :: rest).takeWhile Char.isDigit))
    else firstInt rest

/-- A document field that may hold a number, free text, or be absent —
the loosely-typed scraped data of §9 of the spec. -/
inductive FieldVal where
  | num (q : ℚ)
  | txt (s : String)
  | null
deriving DecidableEq, Repr

/-- `parse_delivery_fee` of `src/services/restaurant_service.py`: a number
is returned as-is, text yields its first decimal number (the `\$?` in the
source regex `\$?(\d+\.?\d*)` does not affect group 1), anything else is 0. -/
def parse_delivery_fee : FieldVal → ℚ
  | .num q => q
  | .txt s =>
    match firstNumber s.data with
    | Option.some q => q
    | Option.none => 0
  | .null => 0

/-- `parse_price` of `src/services/restaurant_service.py` (regex
`(\d+\.?\d*)`). -/
def parse_price : FieldVal → ℚ
  | .num q => q
  | .txt s =>
    match firstNumber s.data with
    | Option.some q => q
    | Option.none => 0
  | .null => 0

/-- Python's `round(x, 2)`: round at the second decimal. -/
def round2 (q : ℚ) : ℚ := ((round (q * 100) : ℤ) : ℚ) / 100

/-- `(d+)\s*min` scanning of the `eta` field validator of
`src/models.py`: the integer preceding `min` (an optional whitespace run
between them).  Shrinking the greedy digit run cannot create a match (the
following character would be a digit, which is neither whitespace nor `m`),
so only the maximal run at each start position is tried, as here. -/
def findEtaNumber : List Char → Option Nat
  | [] => Option.none
  | c :: rest =>
    if c.isDigit then
      let run := (c :: rest).takeWhile Char.isDigit
      let t := ((c :: rest).dropWhile Char.isDigit).dropWhile Char.isWhitespace
      if t.take 3 = ['m', 'i', 'n'] then Option.some (valDigits run)
      else findEtaNumber rest
    else findEtaNumber rest

/-- The `eta` field validator of `RestaurantResponse` (`src/models.py`):
ints pass through, strings yield the integer before `min`, and a string
with no such match is passed through unparsed (modelled as `Option.none`). -/
def parse_eta : FieldVal → Option Nat
  | .num q => Option.some q.num.toNat
  | .txt s => findEtaNumber s.data
  | .null => Option.none

/-- Python `str.strip('()')`: remove `(` and `)` characters from both ends. -/
def stripParens (s : String) : String :=
  let isParen : Char → Bool := fun c => c == '(' || c == ')'
  String.mk (((s.data.dropWhile isParen).reverse.dropWhile isParen).reverse)

/-- Characters of a string lowercased (the `$options: 'i'` regex flag /
Python `.lower()`, restricted to ASCII case folding). -/
def lowerStr (s : String) : String := String.mk (s.data.map Char.toLower)

/-- `listStarts p l` iff `p` is a prefix of `l` (Python `str.startswith`,
Mongo `^...` anchored regex). -/
def listStarts : List Char → List Char → Bool
  | [], _ => true
  | _ :: _, [] => false
  | p :: ps, c :: cs => p == c && listStarts ps cs

/-- `listHasSub p l` iff `p` occurs as a contiguous substring of `l`
(Python `in`, Mongo unanchored regex on `re.escape`d text). -/
def listHasSub (p : List Char) : List Char → Bool
  | [] => p.isEmpty
  | c :: cs => listStarts p (c :: cs) || listHasSub p cs

/-- The `number_of_ratings` field validator of `RestaurantResponse`
(`src/models.py`): strip parentheses; a `k+` marker multiplies the first
decimal number by 1000 (truncated to an integer, Python `int(float * 1000)`);
otherwise the first plain integer; unparseable text passes through
(modelled as `Option.none`). -/
def parse_number_of_ratings : FieldVal → Option Int
  | .num q => Option.some q.num
  | .txt s =>
    let v := stripParens s
    if listHasSub ['k', '+'] (lowerStr v).data then
      match firstNumber v.data with
      | Option.some q => Option.some (Int.floor (q * 1000))
      | Option.none => (firstInt v.data).map Int.ofNat
    else (firstInt v.data).map Int.ofNat
  | .null => Option.none

/-- The `price_range` field validator of `RestaurantResponse`
(`src/models.py`): an integer `n` renders as `n` dollar signs, a string
passes through. -/
def parse_price_range : FieldVal → Option String
  | .num q => Option.some (String.mk (List.replicate q.num.toNat '$'))
  | .txt s => Option.some s
  | .null => Option.none

/-! ### Catalog data model (`src/models.py`, MongoDB documents) -/

/-- A menu-item document of the `items` collection. -/
structure Item where
  _id : String
  store_id : Option String := Option.none
  name : Option String := Option.none
  description : Option String := Option.none
  price : FieldVal := .null
deriving DecidableEq, Repr

/-- A restaurant document of the `restaurants` collection.  `items` models
`restaurant.get('items', [])` (absent field and empty list coincide, as in
the source reads).  `name` is `Option`al: a document without a name never
matches a name regex. -/
structure Restaurant where
  _id : String
  store_id : Option String := Option.none
  name : Option String := Option.none
  description : Option String := Option.none
  delivery_fee : FieldVal := .null
  items : List String := []
deriving DecidableEq, Repr

/-- `CartItem` (`src/models.py`): quantity is validated `ge=1` by pydantic
at the HTTP boundary; the service layer takes it as given. -/
structure CartItem where
  item_id : String
  quantity : Int
deriving DecidableEq, Repr

/-- `CartItemDetail` (`src/models.py`).  `ReceiptItemDetail` declares the
identical fields; the embedding shares one structure. -/
structure CartItemDetail where
  item_id : String
  name : Option String
  description : Option String
  price : ℚ
  quantity : Int
  subtotal : ℚ
deriving DecidableEq, Repr

/-- `ReceiptItemDetail` (`src/models.py`): same fields as `CartItemDetail`. -/
abbrev ReceiptItemDetail := CartItemDetail

/-- A persisted receipt document (the `receipt_data` dict written by
`create_receipt`). -/
structure StoredReceipt where
  receipt_id : String
  restaurant_id : String
  restaurant_name : Option String
  items : List ReceiptItemDetail
  subtotal : ℚ
  delivery_fee : Option ℚ
  tax : ℚ
  total : ℚ
  delivery_id : Option String
  customer_name : Option String
  customer_email : Option String
  customer_phone : Option String
  delivery_address : Option String
  created_at : String
deriving DecidableEq, Repr

/-- The three Mongo collections, in insertion order. -/
structure DB where
  restaurants : List Restaurant
  items : List Item
  receipts : List StoredReceipt
deriving Repr

/-! ### Database lookups (`src/database.py`) -/

/-- `get_restaurant_by_id`: `find_one({'_id': ObjectId(rid)})`. -/
def get_restaurant_by_id (db : DB) (restaurant_id : String) : Option Restaurant :=
  db.restaurants.find? (fun r => r._id == restaurant_id)

/-- `get_items_by_ids`: `find({'_id': {'$in': ids}})` — all documents whose
id occurs in the query list, in collection order (so duplicates in the
query list do not duplicate results). -/
def get_items_by_ids (db : DB) (item_ids : List String) : List Item :=
  db.items.filter (fun it => item_ids.contains it._id)

/-- Exact case-insensitive name match:
`{'name': {'$regex': '^' + re.escape(name) + '$', '$options': 'i'}}`. -/
def exactNameMatch (q : String) (r : Restaurant) : Bool :=
  match r.name with
  | Option.some n => lowerStr n == lowerStr q
  | Option.none => false

/-- Substring case-insensitive name match:
`{'name': {'$regex': re.escape(name), '$options': 'i'}}`. -/
def subNameMatch (q : String) (r : Restaurant) : Bool :=
  match r.name with
  | Option.some n => listHasSub (lowerStr q).data (lowerStr n).data
  | Option.none => false

/-- `get_restaurant_by_name` (`src/database.py`): first exact
case-insensitive match in store order, else first substring match. -/
def get_restaurant_by_name (db : DB) (name : String) : Option Restaurant :=
  match db.restaurants.find? (exactNameMatch name) with
  | Option.some r => Option.some r
  | Option.none => db.restaurants.find? (subNameMatch name)

/-- Exact case-insensitive item-name match. -/
def exactItemNameMatch (q : String) (it : Item) : Bool :=
  match it.name with
  | Option.some n => lowerStr n == lowerStr q
  | Option.none => false

/-- Substring case-insensitive item-name match. -/
def subItemNameMatch (q : String) (it : Item) : Bool :=
  match it.name with
  | Option.some n => listHasSub (lowerStr q).data (lowerStr n).data
  | Option.none => false

/-- `get_item_by_name` (`src/database.py`): within the restaurant's
explicit `items` id list when non-empty (exact match first, then
substring), else within the shared `store_id` (same policy), else nothing.
Python truthiness: an absent or empty `store_id` disables the fallback. -/
def get_item_by_name (db : DB) (restaurant_id : String) (item_name : String) : Option Item :=
  match get_restaurant_by_id db restaurant_id with
  | Option.none => Option.none
  | Option.some r =>
    if !r.items.isEmpty then
      match db.items.find? (fun it => r.items.contains it._id && exactItemNameMatch item_name it) with
      | Option.some it => Option.some it
      | Option.none =>
        db.items.find? (fun it => r.items.contains it._id && subItemNameMatch item_name it)
    else
      match r.store_id with
      | Option.some sid =>
        if sid.isEmpty then Option.none
        else
          match db.items.find? (fun it => it.store_id == Option.some sid && exactItemNameMatch item_name it) with
          | Option.some it => Option.some it
          | Option.none =>
            db.items.find? (fun it => it.store_id == Option.some sid && subItemNameMatch item_name it)
      | Option.none => Option.none

/-! ### Restaurant service (`src/services/restaurant_service.py`) -/

/-- A raised `HTTPException(status_code, detail)`, or any other exception
(its message), as it escapes a service call. -/
inductive Err where
  | http (status_code : Nat) (detail : String)
  | exn (msg : String)
deriving DecidableEq, Repr

/-- `BuildCartRequest` (`src/models.py`). -/
structure BuildCartRequest where
  restaurant_id : String
  items : List CartItem
deriving DecidableEq, Repr

/-- `CostEstimateRequest` (`src/models.py`): same shape as
`BuildCartRequest`. -/
structure CostEstimateRequest where
  restaurant_id : String
  items : List CartItem
deriving DecidableEq, Repr

/-- `CreateReceiptRequest` (`src/models.py`). -/
structure CreateReceiptRequest where
  restaurant_id : String
  items : List CartItem
  delivery_id : Option String := Option.none
  customer_name : Option String := Option.none
  customer_email : Option String := Option.none
  customer_phone : Option String := Option.none
  delivery_address : Option String := Option.none
deriving DecidableEq, Repr

/-- `CartResponse` (`src/models.py`). -/
structure CartResponse where
  restaurant_id : String
  restaurant_name : Option String
  items : List CartItemDetail
  subtotal : ℚ
  delivery_fee : Option ℚ
  total : ℚ
deriving DecidableEq, Repr

/-- `CostEstimateResponse` (`src/models.py`). -/
structure CostEstimateResponse where
  restaurant_id : String
  restaurant_name : Option String
  subtotal : ℚ
  delivery_fee : Option ℚ
  estimated_total : ℚ
  estimated_tax : ℚ
deriving DecidableEq, Repr

/-- `ReceiptResponse` (`src/models.py`): the stored document plus the Mongo
document id returned by `insert_one`. -/
structure ReceiptResponse where
  _id : String
  receipt_id : String
  restaurant_id : String
  restaurant_name : Option String
  items : List ReceiptItemDetail
  subtotal : ℚ
  delivery_fee : Option ℚ
  tax : ℚ
  total : ℚ
  delivery_id : Option String
  customer_name : Option String
  customer_email : Option String
  customer_phone : Option String
  delivery_address : Option String
  created_at : String
deriving DecidableEq, Repr

/-- The per-item pricing loop shared (textually identically) by
`build_cart` and `create_receipt`: look each cart item up in the fetched
documents (`items_map.get`), raise `400 Item ... not found` on a miss, and
accumulate priced details plus the running subtotal. -/
def buildCartItems (items_data : List Item) : List CartItem → Except Err (List CartItemDetail × ℚ)
  | [] => .ok ([], 0)
  | ci :: rest =>
    match items_data.find? (fun it => it._id == ci.item_id) with
    | Option.none => .error (.http 400 ("Item " ++ ci.item_id ++ " not found"))
    | Option.some it =>
      let item_price := parse_price it.price
      let item_subtotal := item_price * (ci.quantity : ℚ)
      match buildCartItems items_data rest with
      | .error e => .error e
      | .ok (tl, s) =>
        .ok ({ item_id := ci.item_id, name := it.name, description := it.description,
               price := item_price, quantity := ci.quantity,
               subtotal := item_subtotal } :: tl, item_subtotal + s)

/-- The subtotal-only loop of `compute_cost_estimate` (same lookups and
error as `buildCartItems`, accumulating only the sum). -/
def sumCartItems (items_data : List Item) : List CartItem → Except Err ℚ
  | [] => .ok 0
  | ci :: rest =>
    match items_data.find? (fun it => it._id == ci.item_id) with
    | Option.none => .error (.http 400 ("Item " ++ ci.item_id ++ " not found"))
    | Option.some it =>
      match sumCartItems items_data rest with
      | .error e => .error e
      | .ok s => .ok (parse_price it.price * (ci.quantity : ℚ) + s)

/-- The `delivery_fee` response field:
`round(delivery_fee, 2) if delivery_fee else None` — Python float
truthiness maps a parsed fee of exactly 0 to `None`. -/
def feeField (delivery_fee : ℚ) : Option ℚ :=
  if delivery_fee = 0 then Option.none else Option.some (round2 delivery_fee)

/-- `build_cart` (`src/services/restaurant_service.py`). -/
def build_cart (db : DB) (request : BuildCartRequest) : Except Err CartResponse :=
  match get_restaurant_by_id db request.restaurant_id with
  | Option.none => .error (.http 404 "Restaurant not found")
  | Option.some restaurant =>
    let item_ids := request.items.map CartItem.item_id
    let items_data := get_items_by_ids db item_ids
    if items_data.length ≠ item_ids.length then
      .error (.http 400 "One or more items not found or invalid")
    else
      match buildCartItems items_data request.items with
      | .error e => .error e
      | .ok (cart_items, subtotal) =>
        let delivery_fee := parse_delivery_fee restaurant.delivery_fee
        let total := subtotal + delivery_fee
        .ok { restaurant_id := request.restaurant_id
              restaurant_name := restaurant.name
              items := cart_items
              subtotal := round2 subtotal
              delivery_fee := feeField delivery_fee
              total := round2 total }

/-- The tax rate hard-coded in `compute_cost_estimate` and
`create_receipt`. -/
def tax_rate : ℚ := 0.085

/-- `compute_cost_estimate` (`src/services/restaurant_service.py`). -/
def compute_cost_estimate (db : DB) (request : CostEstimateRequest) :
    Except Err CostEstimateResponse :=
  match get_restaurant_by_id db request.restaurant_id with
  | Option.none => .error (.http 404 "Restaurant not found")
  | Option.some restaurant =>
    let item_ids := request.items.map CartItem.item_id
    let items_data := get_items_by_ids db item_ids
    if items_data.length ≠ item_ids.length then
      .error (.http 400 "One or more items not found or invalid")
    else
      match sumCartItems items_data request.items with
      | .error e => .error e
      | .ok subtotal =>
        let delivery_fee := parse_delivery_fee restaurant.delivery_fee
        let estimated_tax := subtotal * tax_rate
        let estimated_total := subtotal + delivery_fee + estimated_tax
        .ok { restaurant_id := request.restaurant_id
              restaurant_name := restaurant.name
              subtotal := round2 subtotal
              delivery_fee := feeField delivery_fee
              estimated_total := round2 estimated_total
              estimated_tax := round2 estimated_tax }

/-! ### Receipt ids (`generate_receipt_id`, `create_receipt`) -/

/-- Decimal digits of a natural number, most significant first
(Python `str(n)`). -/
def natDigits (n : Nat) : List Char :=
  if h : n < 10 then [Char.ofNat (48 + n)]
  else natDigits (n / 10) ++ [Char.ofNat (48 + n % 10)]
decreasing_by exact Nat.div_lt_self (by omega) (by norm_num)

/-- Python `str.zfill(w)`: left-pad with `'0'` to width `w` (no
truncation for longer strings). -/
def zfill (w : Nat) (s : List Char) : List Char :=
  List.replicate (w - s.length) '0' ++ s

/-- The id prefix of receipts of day `d`: `RCP-<YYYYMMDD>-`. -/
def dayPre (d : String) : String := "RCP-" ++ d ++ "-"

/-- `count_documents({'receipt_id': {'$regex': '^RCP-<date>-'}})` over a
list of receipt ids. -/
def countTodayIds (ids : List String) (d : String) : Nat :=
  (ids.filter (fun i => listStarts (dayPre d).data i.data)).length

/-- `generate_receipt_id` on a given id list and UTC day string:
`RCP-<date>-<count+1 zero-padded to 3>`. -/
def genIdFromIds (d : String) (ids : List String) : String :=
  dayPre d ++ String.mk (zfill 3 (natDigits (countTodayIds ids d + 1)))

/-- `generate_receipt_id` (`src/services/restaurant_service.py`); the UTC
day `datetime.utcnow().strftime('%Y%m%d')` is a parameter. -/
def generate_receipt_id (receipts : List StoredReceipt) (today : String) : String :=
  genIdFromIds today (receipts.map StoredReceipt.receipt_id)

/-- `create_receipt` (`src/services/restaurant_service.py`).  The wall
clock enters as `today` (the `%Y%m%d` day used for the id) and `now` (the
`isoformat` timestamp).  On success the new document is inserted
(`insert_one` appends) and the response carries the inserted Mongo id; on
any error nothing is written. -/
def create_receipt (db : DB) (request : CreateReceiptRequest) (today now : String) :
    Except Err (ReceiptResponse × DB) :=
  match get_restaurant_by_id db request.restaurant_id with
  | Option.none => .error (.http 404 "Restaurant not found")
  | Option.some restaurant =>
    let item_ids := request.items.map CartItem.item_id
    let items_data := get_items_by_ids db item_ids
    if items_data.length ≠ item_ids.length then
      .error (.http 400 "One or more items not found or invalid")
    else
      match buildCartItems items_data request.items with
      | .error e => .error e
      | .ok (receipt_items, subtotal) =>
        let delivery_fee := parse_delivery_fee restaurant.delivery_fee
        let tax := subtotal * tax_rate
        let total := subtotal + delivery_fee + tax
        let receipt_id := generate_receipt_id db.receipts today
        let receipt_data : StoredReceipt :=
          { receipt_id := receipt_id
            restaurant_id := request.restaurant_id
            restaurant_name := restaurant.name
            items := receipt_items
            subtotal := round2 subtotal
            delivery_fee := feeField delivery_fee
            tax := round2 tax
            total := round2 total
            delivery_id := request.delivery_id
            customer_name := request.customer_name
            customer_email := request.customer_email
            customer_phone := request.customer_phone
            delivery_address := request.delivery_address
            created_at := now }
        let receipt_mongo_id := String.mk (natDigits db.receipts.length)
        .ok ({ _id := receipt_mongo_id
               receipt_id := receipt_id
               restaurant_id := request.restaurant_id
               restaurant_name := restaurant.name
               items := receipt_items
               subtotal := round2 subtotal
               delivery_fee := feeField delivery_fee
               tax := round2 tax
               total := round2 total
               delivery_id := request.delivery_id
               customer_name := request.customer_name
               customer_email := request.customer_email
               customer_phone := request.customer_phone
               delivery_address := request.delivery_address
               created_at := now },
             { db with receipts := db.receipts ++ [receipt_data] })

/-- The store of receipt ids after `n` further successful creations on day
`d`, starting from ids `s`: each creation appends the id
`generate_receipt_id` produces against the then-current store. -/
def idRun (d : String) (s : List String) : Nat → List String
  | 0 => s
  | n + 1 => idRun d s n ++ [genIdFromIds d (idRun d s n)]

/-- The id assigned to the `(k+1)`-th receipt created on day `d` after
store state `s`. -/
def createdId (d : String) (s : List String) (k : Nat) : String :=
  genIdFromIds d (idRun d s k)

/-! ### Menu and listing services -/

/-- `db_service.get_menu_items` (`src/database.py`): items linked by the
restaurant's explicit id list, falling back to the shared `store_id` when
that list is empty (truthiness: absent and empty coincide). -/
def get_menu_items (db : DB) (restaurant_id : String) : List Item :=
  match get_restaurant_by_id db restaurant_id with
  | Option.none => []
  | Option.some r =>
    if r.items.isEmpty then
      match r.store_id with
      | Option.some sid => db.items.filter (fun it => it.store_id == Option.some sid)
      | Option.none => []
    else db.items.filter (fun it => r.items.contains it._id)

/-- The menu payload built by `get_restaurant_menu_by_name`
(`src/services/restaurant_service.py`). -/
structure MenuResponse where
  restaurant_id : String
  restaurant_name : Option String
  items : List Item
  total_items : Nat
deriving DecidableEq, Repr

/-- `get_restaurant_menu_by_name` (`src/services/restaurant_service.py`). -/
def get_restaurant_menu_by_name (db : DB) (restaurant_name : String) :
    Except Err MenuResponse :=
  match get_restaurant_by_name db restaurant_name with
  | Option.none =>
    .error (.http 404 ("Restaurant '" ++ restaurant_name ++ "' not found"))
  | Option.some restaurant =>
    let items := get_menu_items db restaurant._id
    .ok { restaurant_id := restaurant._id
          restaurant_name := restaurant.name
          items := items
          total_items := items.length }

/-- `get_menu_item` (`src/services/restaurant_service.py`). -/
def get_menu_item (db : DB) (item_id : String) : Except Err Item :=
  match db.items.find? (fun it => it._id == item_id) with
  | Option.none => .error (.http 404 "Item not found")
  | Option.some it => .ok it

/-- `list_restaurants` (`src/services/restaurant_service.py`):
`find({}).limit(limit).skip(skip)` — the server applies skip before limit
— plus the collection's total count.  A Mongo limit of 0 means
"no limit". -/
structure ListRestaurantsResult where
  restaurants : List Restaurant
  total : Nat
  limit : Nat
  skip : Nat
deriving Repr

/-- `list_restaurants` (`src/services/restaurant_service.py`). -/
def list_restaurants (db : DB) (limit skip : Nat) : ListRestaurantsResult :=
  let sliced := (db.restaurants.drop skip)
  { restaurants := if limit = 0 then sliced else sliced.take limit
    total := db.restaurants.length
    limit := limit
    skip := skip }

/-! ### Agent name resolution (`src/routers/agent.py`) -/

/-- `resolve_restaurant_name_to_id`: the Mongo `_id` of the name-resolved
restaurant, or a `ValueError` message. -/
def resolve_restaurant_name_to_id (db : DB) (restaurant_name : String) :
    Except String String :=
  match get_restaurant_by_name db restaurant_name with
  | Option.none => .error ("Restaurant '" ++ restaurant_name ++ "' not found")
  | Option.some r => .ok r._id

/-- `resolve_item_name_to_id`: restaurant first, then the item within it. -/
def resolve_item_name_to_id (db : DB) (restaurant_name item_name : String) :
    Except String String :=
  match get_restaurant_by_name db restaurant_name with
  | Option.none => .error ("Restaurant '" ++ restaurant_name ++ "' not found")
  | Option.some r =>
    match get_item_by_name db r._id item_name with
    | Option.none =>
      .error ("Item '" ++ item_name ++ "' not found in restaurant '" ++ restaurant_name ++ "'")
    | Option.some it => .ok it._id

/-! ### Conversation history (`src/routers/agent.py`) -/

/-- A stored conversation message, reduced to the fields the trimming and
fallback logic reads.  For a tool-result message, `toolError` models the
`error` field of the (JSON-decoded) result content; the serialized JSON
body itself is not modelled. -/
structure ChatMsg where
  role : String
  content : Option String := Option.none
  hasToolCalls : Bool := false
  toolError : Option String := Option.none
deriving DecidableEq, Repr

/-- `trim_conversation_history` (`src/routers/agent.py`): a list of at most
`max_messages` messages is returned unchanged; otherwise all system
messages (in order) followed by the last `max_messages` non-system
messages (in order). -/
def trim_conversation_history (messages : List ChatMsg) (max_messages : Nat := 20) :
    List ChatMsg :=
  if messages.length ≤ max_messages then messages
  else
    let system_msgs := messages.filter (fun m => m.role == "system")
    let non_system_msgs := messages.filter (fun m => !(m.role == "system"))
    let trimmed_non_system :=
      if max_messages < non_system_msgs.length then
        non_system_msgs.drop (non_system_msgs.length - max_messages)
      else non_system_msgs
    system_msgs ++ trimmed_non_system

/-! ### Tool dispatcher (`execute_function_call`, `src/routers/agent.py`)

The argument dictionary is modelled by `FnArgs`: one `Option` field per key
the dispatcher reads (`Option.none` = key absent).  Python truthiness
(`if not x`) on strings and numbers is modelled by `strGiven`/`intGiven`:
an empty string and the number 0 count as not given, exactly as in the
source.  The DoorDash HTTP client is an oracle parameter `dd`; the
`doordash_service` wrappers convert every failure into an
`HTTPException`, so its errors arrive as `Err.http`. -/

/-- One entry of the `items` argument array. -/
structure ArgItem where
  item_name : Option String := Option.none
  quantity : Option Int := Option.none
deriving DecidableEq, Repr

/-- The keys of the tool-call argument dictionary that
`execute_function_call` reads. -/
structure FnArgs where
  limit : Option Nat := Option.none
  skip : Option Nat := Option.none
  restaurant_name : Option String := Option.none
  item_name : Option String := Option.none
  items : List ArgItem := []
  delivery_id : Option String := Option.none
  customer_name : Option String := Option.none
  customer_email : Option String := Option.none
  customer_phone : Option String := Option.none
  delivery_address : Option String := Option.none
  external_delivery_id : Option String := Option.none
  pickup_address : Option String := Option.none
  pickup_business_name : Option String := Option.none
  pickup_phone_number : Option String := Option.none
  dropoff_address : Option String := Option.none
  dropoff_phone_number : Option String := Option.none
  order_value : Option Int := Option.none
deriving Repr

/-- Python truthiness of an optional string (`if not s`). -/
def strGiven : Option String → Bool
  | Option.some s => !s.isEmpty
  | Option.none => false

/-- Python truthiness of an optional number (`if not n`). -/
def intGiven : Option Int → Bool
  | Option.some n => !(n == 0)
  | Option.none => false

/-- `str(e)` of an escaped exception: Starlette's
`HTTPException.__str__` is `"<status>: <detail>"`. -/
def errStr : Err → String
  | .http st d => String.mk (natDigits st) ++ ": " ++ d
  | .exn m => m

/-- The minimal projection of a restaurant returned when a listing holds
more than 20 entries. -/
structure RestMini where
  _id : String
  name : Option String
  description : Option String
  store_id : Option String
deriving DecidableEq, Repr

/-- A `DoorDashCreateDeliveryRequest` (required fields; the optional
passthrough fields beyond `order_value` are not read by any property
verified here). -/
structure DDCreateRequest where
  external_delivery_id : String
  pickup_address : String
  pickup_business_name : String
  pickup_phone_number : String
  dropoff_address : String
  dropoff_phone_number : String
  order_value : Option Int := Option.none
deriving DecidableEq, Repr

/-- An opaque DoorDash response body (passed through verbatim). -/
structure DDResp where
  body : String
deriving DecidableEq, Repr

/-- A call to the DoorDash service layer. -/
inductive DDCall where
  | create (req : DDCreateRequest)
  | track (external_delivery_id : String)
deriving DecidableEq, Repr

/-- A successful tool result (the shaped dict the source returns). -/
inductive Payload where
  | restaurantList (r : ListRestaurantsResult)
  | restaurantListMini (restaurants : List RestMini) (total limit skip : Nat) (note : String)
  | menu (m : MenuResponse)
  | menuItem (it : Item)
  | cart (c : CartResponse)
  | estimate (e : CostEstimateResponse)
  | receipt (r : ReceiptResponse)
  | delivery (d : DDResp)

/-- The dispatcher's result dict: either a success payload or a structured
`{error, error_type?, status_code?}` — never an exception. -/
inductive FCResult where
  | ok (p : Payload)
  | err (error : String) (error_type : Option String := Option.none)
        (status_code : Option Nat := Option.none)

/-- Whether an `FCResult` is the error shape (`"error" in function_result`). -/
def FCResult.isErr : FCResult → Bool
  | .ok _ => false
  | .err _ _ _ => true

/-- The pydantic `ValidationError` text for a `CartItem` with
`quantity < 1` (pydantic-generated; its exact wording is not part of any
verified property, only that the failure is returned as an error dict). -/
def pydanticQuantityMsg : String :=
  "1 validation error for CartItem: quantity must be greater than or equal to 1"

/-- The pydantic `ValidationError` text for a missing required
`DoorDashCreateDeliveryRequest` field (likewise abstracted). -/
def ddValidationDetail : String :=
  "validation error for DoorDashCreateDeliveryRequest: field required"

/-- The per-item resolution loop shared by the `build_cart`,
`compute_cost_estimate` and `create_receipt` branches: reject an item with
a missing/falsy name or quantity, then resolve its name within the
restaurant (a `ValueError` message on failure). -/
def resolveArgItems (db : DB) (restaurant_name : String) :
    List ArgItem → Except String (List (String × Int))
  | [] => .ok []
  | item :: rest =>
    match item.item_name, item.quantity with
    | Option.some nm, Option.some q =>
      if nm.isEmpty || q == 0 then .error "Each item must have item_name and quantity"
      else
        match resolve_item_name_to_id db restaurant_name nm with
        | .error e => .error e
        | .ok item_id =>
          match resolveArgItems db restaurant_name rest with
          | .error e => .error e
          | .ok tl => .ok ((item_id, q) :: tl)
    | _, _ => .error "Each item must have item_name and quantity"

/-- `[CartItem(**item) for item in resolved_items]`: pydantic validates
`quantity ≥ 1` (its `ValidationError` subclasses `ValueError`, so the
branch's `except ValueError` turns it into an error dict). -/
def mkCartItems : List (String × Int) → Except String (List CartItem)
  | [] => .ok []
  | (item_id, q) :: rest =>
    if q < 1 then .error pydanticQuantityMsg
    else
      match mkCartItems rest with
      | .error e => .error e
      | .ok tl => .ok ({ item_id := item_id, quantity := q } :: tl)

/-- `DoorDashCreateDeliveryRequest(**arguments)`: all six required fields
must be present. -/
def mkDDRequest (args : FnArgs) : Except String DDCreateRequest :=
  match args.external_delivery_id, args.pickup_address, args.pickup_business_name,
        args.pickup_phone_number, args.dropoff_address, args.dropoff_phone_number with
  | Option.some a, Option.some b, Option.some c, Option.some d, Option.some e, Option.some f =>
    .ok { external_delivery_id := a, pickup_address := b, pickup_business_name := c,
          pickup_phone_number := d, dropoff_address := e, dropoff_phone_number := f,
          order_value := args.order_value }
  | _, _, _, _, _, _ => .error ddValidationDetail

/-- The eight declared tool names (`get_gpt_tools`). -/
def toolNames : List String :=
  ["list_restaurants", "get_restaurant_menu", "get_menu_item", "build_cart",
   "compute_cost_estimate", "create_receipt", "create_delivery", "track_delivery"]

/-- `execute_function_call` (`src/routers/agent.py`).  Besides the result
dict it returns the (possibly) updated store — only a successful
`create_receipt` writes.  `dd` is the DoorDash client, `today`/`now` the
wall clock.  Totality of this definition is the "never raises" property:
every failure of an underlying operation travels as an `Except` value and
is turned into an `FCResult.err` exactly where the source's `except`
clauses catch it (the branch-local `except ValueError`/`except Exception`
for the name-resolving branches, the outermost pair for the rest). -/
def execute_function_call (db : DB) (dd : DDCall → Except Err DDResp)
    (today now : String) (function_name : String) (args : FnArgs) : FCResult × DB :=
  if function_name == "list_restaurants" then
    let limit := min (args.limit.getD 100) 100
    let skip := args.skip.getD 0
    let result := list_restaurants db limit skip
    if result.restaurants.length > 20 then
      let minimal := result.restaurants.map (fun r =>
        ({ _id := r._id, name := r.name, description := r.description,
           store_id := r.store_id } : RestMini))
      (.ok (.restaurantListMini minimal result.total result.limit result.skip
        ("Showing minimal data (id, name, description) for " ++
         String.mk (natDigits minimal.length) ++
         " restaurants. Use get_restaurant_menu for full details.")), db)
    else (.ok (.restaurantList result), db)
  else if function_name == "get_restaurant_menu" then
    match args.restaurant_name with
    | Option.none => (.err "restaurant_name is required", db)
    | Option.some rn =>
      if rn.isEmpty then (.err "restaurant_name is required", db)
      else
        match get_restaurant_menu_by_name db rn with
        | .error (.http st d) => (.err d (Option.some "http_exception") (Option.some st), db)
        | .error (.exn m) =>
          (.err ("Unexpected error: " ++ m) (Option.some "unexpected_error"), db)
        | .ok m =>
          if m.items.length > 20 then
            (.ok (.menu { m with items := m.items.take 20,
                                 total_items := min m.total_items 20 }), db)
          else (.ok (.menu m), db)
  else if function_name == "get_menu_item" then
    if !(strGiven args.restaurant_name) || !(strGiven args.item_name) then
      (.err "restaurant_name and item_name are required", db)
    else
      match args.restaurant_name, args.item_name with
      | Option.some rn, Option.some itn =>
        (match resolve_item_name_to_id db rn itn with
         | .error e => .err e
         | .ok item_id =>
           match get_menu_item db item_id with
           | .error (.http st d) => .err d (Option.some "http_exception") (Option.some st)
           | .error (.exn m) => .err ("Unexpected error: " ++ m) (Option.some "unexpected_error")
           | .ok it => .ok (.menuItem it), db)
      | _, _ => (.err "restaurant_name and item_name are required", db)
  else if function_name == "build_cart" then
    if !(strGiven args.restaurant_name) || args.items.isEmpty then
      (.err "restaurant_name and items are required", db)
    else
      match args.restaurant_name with
      | Option.some rn =>
        (match resolve_restaurant_name_to_id db rn with
         | .error e => .err e
         | .ok restaurant_id =>
           match resolveArgItems db rn args.items with
           | .error e => .err e
           | .ok pairs =>
             match mkCartItems pairs with
             | .error e => .err e
             | .ok items =>
               match build_cart db { restaurant_id := restaurant_id, items := items } with
               | .error e => .err ("Invalid request parameters: " ++ errStr e)
               | .ok c => .ok (.cart c), db)
      | Option.none => (.err "restaurant_name and items are required", db)
  else if function_name == "compute_cost_estimate" then
    if !(strGiven args.restaurant_name) || args.items.isEmpty then
      (.err "restaurant_name and items are required", db)
    else
      match args.restaurant_name with
      | Option.some rn =>
        (match resolve_restaurant_name_to_id db rn with
         | .error e => .err e
         | .ok restaurant_id =>
           match resolveArgItems db rn args.items with
           | .error e => .err e
           | .ok pairs =>
             match mkCartItems pairs with
             | .error e => .err e
             | .ok items =>
               match compute_cost_estimate db { restaurant_id := restaurant_id, items := items } with
               | .error e => .err ("Invalid request parameters: " ++ errStr e)
               | .ok est => .ok (.estimate est), db)
      | Option.none => (.err "restaurant_name and items are required", db)
  else if function_name == "create_receipt" then
    if !(strGiven args.restaurant_name) || args.items.isEmpty then
      (.err "restaurant_name and items are required", db)
    else
      match args.restaurant_name with
      | Option.some rn =>
        (match resolve_restaurant_name_to_id db rn with
         | .error e => (.err e, db)
         | .ok restaurant_id =>
           match resolveArgItems db rn args.items with
           | .error e => (.err e, db)
           | .ok pairs =>
             match mkCartItems pairs with
             | .error e => (.err e, db)
             | .ok items =>
               match create_receipt db
                 { restaurant_id := restaurant_id, items := items,
                   delivery_id := args.delivery_id,
                   customer_name := args.customer_name,
                   customer_email := args.customer_email,
                   customer_phone := args.customer_phone,
                   delivery_address := args.delivery_address } today now with
               | .error e => (.err ("Invalid request parameters: " ++ errStr e), db)
               | .ok (resp, db') => (.ok (.receipt resp), db'))
      | Option.none => (.err "restaurant_name and items are required", db)
  else if function_name == "create_delivery" then
    match mkDDRequest args with
    | .error e => (.err ("Invalid request parameters: " ++ e), db)
    | .ok req =>
      match dd (.create req) with
      | .error (.http st d) => (.err d (Option.some "http_exception") (Option.some st), db)
      | .error (.exn m) =>
        (.err ("Unexpected error: " ++ m) (Option.some "unexpected_error"), db)
      | .ok resp => (.ok (.delivery resp), db)
  else if function_name == "track_delivery" then
    match args.external_delivery_id with
    | Option.none => (.err "external_delivery_id is required", db)
    | Option.some edid =>
      if edid.isEmpty then (.err "external_delivery_id is required", db)
      else
        match dd (.track edid) with
        | .error (.http st d) => (.err d (Option.some "http_exception") (Option.some st), db)
        | .error (.exn m) =>
          (.err ("Unexpected error: " ++ m) (Option.some "unexpected_error"), db)
        | .ok resp => (.ok (.delivery resp), db)
  else (.err ("Unknown function: " ++ function_name), db)

/-! ### Orchestration loop (`agent_chat`, `src/routers/agent.py`)

The language-model provider is an oracle `oracle : List ChatMsg →
ModelResp` (a deterministic function of the messages sent so far), and
the tool executor is an abstract `exec : ToolCallReq → FCResult`
standing for JSON-argument decoding followed by `execute_function_call`.
A tool-result message's JSON body is abstracted to its decoded `error`
field (`ChatMsg.toolError`); the assistant/fallback logic never reads
tool-message text.  The thread store, entry/exit trimming and the system
prompt seeding around the loop take place outside it and are not part of
the loop properties verified here: `msgs0` is an arbitrary seed. -/

/-- A tool invocation requested by the model (name + correlation id; the
raw JSON argument text is folded into `exec`). -/
structure ToolCallReq where
  id : String
  name : String
deriving DecidableEq, Repr

/-- One model response: free text and/or requested tool calls. -/
structure ModelResp where
  content : Option String := Option.none
  toolCalls : List ToolCallReq := []

/-- The tool-result message appended for one executed tool call, after the
error re-wrapping (`success: false, error, error_type, suggestion`): the
decoded `error` field survives as `toolError`. -/
def toolResultMsg (exec : ToolCallReq → FCResult) (tc : ToolCallReq) : ChatMsg :=
  match exec tc with
  | .ok _ => { role := "tool" }
  | .err e _ _ => { role := "tool", toolError := Option.some e }

/-- The `while iteration < max_iterations` loop of `agent_chat`: ask the
model, append its message; stop with its text if it requested no tools,
else execute every requested tool, append the results, and continue.
Returns (final messages, `final_response`, number of model calls made).
The source decrements the budget only on tool rounds, but a text round
ends the loop anyway, so counting every round against the fuel is
observationally identical. -/
def runLoop (oracle : List ChatMsg → ModelResp) (exec : ToolCallReq → FCResult) :
    Nat → List ChatMsg → List ChatMsg × String × Nat
  | 0, msgs => (msgs, "", 0)
  | fuel + 1, msgs =>
    let r := oracle msgs
    let msgs1 := msgs ++
      [{ role := "assistant", content := r.content, hasToolCalls := !r.toolCalls.isEmpty }]
    if r.toolCalls.isEmpty then (msgs1, r.content.getD "", 1)
    else
      let msgs2 := msgs1 ++ r.toolCalls.map (toolResultMsg exec)
      let out := runLoop oracle exec fuel msgs2
      (out.1, out.2.1, out.2.2 + 1)

/-- `msg.get("role") == "assistant" and msg.get("content")`: an assistant
message with truthy (present, non-empty) text. -/
def isAssistantText (m : ChatMsg) : Bool :=
  m.role == "assistant" &&
    (match m.content with
     | Option.some c => !c.isEmpty
     | Option.none => false)

/-- First fallback: scan `reversed(messages)` for an assistant message
with truthy content. -/
def lastAssistantText (msgs : List ChatMsg) : Option String :=
  match msgs.reverse.find? isAssistantText with
  | Option.some m => m.content
  | Option.none => Option.none

/-- Second fallback's collection pass: the `error` fields of tool-result
messages, in message order. -/
def toolErrors (msgs : List ChatMsg) : List String :=
  msgs.filterMap (fun m => if m.role == "tool" then m.toolError else Option.none)

/-- The generic apology returned when no other fallback applies. -/
def apologyText : String :=
  "I apologize, but I encountered an issue processing your request. The agent may have exceeded the maximum iterations or encountered an unexpected error."

/-- The post-loop fallback chain of `agent_chat`: a falsy `final_response`
is replaced by the last assistant text, else by the last tool error
(prefixed `I encountered an error: `), else by the apology. -/
def finalizeResponse (msgs : List ChatMsg) (final : String) : String :=
  if final.isEmpty then
    match lastAssistantText msgs with
    | Option.some t => t
    | Option.none =>
      match (toolErrors msgs).getLast? with
      | Option.some e => "I encountered an error: " ++ e
      | Option.none => apologyText
  else final

/-- `max_iterations = 10`. -/
def max_iterations : Nat := 10

/-- The response text `agent_chat` returns for one request, given the
seeded message list. -/
def agent_chat_response (oracle : List ChatMsg → ModelResp)
    (exec : ToolCallReq → FCResult) (msgs0 : List ChatMsg) : String :=
  let out := runLoop oracle exec max_iterations msgs0
  finalizeResponse out.1 out.2.1

/-! ## Helper lemmas -/

/-- A list starts with itself followed by anything. -/
theorem listStarts_append_self (p t : List Char) : listStarts p (p ++ t) = true := by
  induction p with
  | nil => rfl
  | cons c cs ih => simp [listStarts, ih]

/-- Every list starts with itself. -/
theorem listStarts_self (p : List Char) : listStarts p p = true := by
  have h := listStarts_append_self p []
  simpa using h

/-- Every list contains itself as a substring. -/
theorem listHasSub_self (p : List Char) : listHasSub p p = true := by
  cases p with
  | nil => rfl
  | cons c cs => simp [listHasSub, listStarts_self]

/-- An exact case-insensitive name match is in particular a substring
match. -/
theorem subNameMatch_of_exact {q : String} {r : Restaurant}
    (h : exactNameMatch q r = true) : subNameMatch q r = true := by
  unfold exactNameMatch at h
  unfold subNameMatch
  cases hn : r.name with
  | none => rw [hn] at h; exact absurd h (by simp)
  | some n =>
    rw [hn] at h
    have heq : lowerStr n = lowerStr q := by simpa using h
    simp only [heq]
    exact listHasSub_self _

/-! ## C8 — numeric-from-text parsers -/

/-- C8: the numeric-from-text parsers extract the first decimal number
scanning left to right (`parse_price`/`parse_delivery_fee` return exactly
the first number found, when one is found), and on the spec's concrete
inputs: `parse_price "$$16.99" = 16.99`,
`parse_delivery_fee "$0 delivery fee, first order" = 0.0`, a rating-count
string `"(3k+)"` parses to `3000`, the ETA string `"36 min"` parses to
`36`, and an integer `price_range` of 2 renders as `"$$"`. -/
theorem c8_numeric_text_parsers :
    (∀ (s : String) (q : ℚ), firstNumber s.data = Option.some q →
        parse_price (.txt s) = q ∧ parse_delivery_fee (.txt s) = q)
  ∧ parse_price (.txt "$$16.99") = 16.99
  ∧ parse_delivery_fee (.txt "$0 delivery fee, first order") = 0
  ∧ parse_number_of_ratings (.txt "(3k+)") = Option.some 3000
  ∧ parse_eta (.txt "36 min") = Option.some 36
  ∧ parse_price_range (.num 2) = Option.some "$$" := by
  refine ⟨?_, ?_, ?_, ?_, ?_, ?_⟩
  · intro s q h
    constructor
    · simp [parse_price, h]
    · simp [parse_delivery_fee, h]
  · have h : firstNumberParts "$$16.99".data = Option.some (16, 99, 2) := by decide
    simp [parse_price, firstNumber, h, ratOfParts]
    norm_num
  · have h : firstNumberParts "$0 delivery fee, first order".data = Option.some (0, 0, 0) := by
      decide
    simp [parse_delivery_fee, firstNumber, h, ratOfParts]
  · have h : firstNumberParts (stripParens "(3k+)").data = Option.some (3, 0, 0) := by decide
    have h2 : listHasSub ['k', '+'] (lowerStr (stripParens "(3k+)")).data = true := by decide
    simp [parse_number_of_ratings, h, h2, firstNumber, ratOfParts]
    norm_num
  · decide
  · simp only [parse_price_range]
    decide

/-- Witness for the general clause of `c8_numeric_text_parsers` at the
concrete string `"$$16.99"`. -/
theorem c8_numeric_text_parsers_witness :
    parse_price (.txt "$$16.99") = 16.99 ∧ parse_delivery_fee (.txt "$$16.99") = 16.99 :=
  c8_numeric_text_parsers.1 "$$16.99" 16.99 (by
    have h : firstNumberParts "$$16.99".data = Option.some (16, 99, 2) := by decide
    simp [firstNumber, h, ratOfParts]
    norm_num)

/-! ## C9 — concrete receipt round-trip -/

/-- The fixture restaurant: its `delivery_fee` field holds the free-text
string `"$2.99 flyer"`. -/
def theRestaurant : Restaurant :=
  { _id := "rest1", name := Option.some "Testaurant", delivery_fee := .txt "$2.99 flyer" }

/-- Fixture item priced 12.99. -/
def itemA : Item := { _id := "itemA", name := Option.some "A", price := .num 12.99 }

/-- Fixture item priced 5.00. -/
def itemB : Item := { _id := "itemB", name := Option.some "B", price := .num 5.00 }

/-- Fixture store holding the two items and their restaurant. -/
def c9db : DB := { restaurants := [theRestaurant], items := [itemA, itemB], receipts := [] }

/-- The order: item A × 2, item B × 1. -/
def c9req : CreateReceiptRequest :=
  { restaurant_id := "rest1", items := [⟨"itemA", 2⟩, ⟨"itemB", 1⟩] }

/-- C9: creating a receipt for items priced 12.99 (×2) and 5.00 (×1) at a
restaurant whose delivery-fee field is the string `"$2.99 flyer"` yields
subtotal 30.98, delivery fee 2.99, tax 2.63 and total 36.60, all rounded
to two decimals. -/
theorem c9_receipt_roundtrip :
    (create_receipt c9db c9req "20251012" "2025-10-12T12:00:00Z").map
      (fun p => (p.1.subtotal, p.1.delivery_fee, p.1.tax, p.1.total)) =
    .ok ((30.98 : ℚ), Option.some (2.99 : ℚ), (2.63 : ℚ), (36.60 : ℚ)) := by
  have hfee : parse_delivery_fee (FieldVal.txt "$2.99 flyer") = 2.99 := by
    have h : firstNumberParts "$2.99 flyer".data = Option.some (2, 99, 2) := by decide
    simp [parse_delivery_fee, firstNumber, h, ratOfParts]
    norm_num
  simp [create_receipt, c9db, c9req, get_restaurant_by_id, get_items_by_ids,
    buildCartItems, theRestaurant, itemA, itemB, parse_price, hfee, feeField, tax_rate]
  norm_num [round2, round_eq, Except.map]

/-! ## Inversion lemmas for the pricing pipeline -/

/-- What a successful `build_cart` tells us about its pieces. -/
theorem build_cart_ok_inv {db : DB} {req : BuildCartRequest} {cart : CartResponse}
    (h : build_cart db req = .ok cart) :
    ∃ restaurant cart_items subtotal,
      get_restaurant_by_id db req.restaurant_id = Option.some restaurant ∧
      buildCartItems (get_items_by_ids db (req.items.map CartItem.item_id)) req.items
        = .ok (cart_items, subtotal) ∧
      cart.restaurant_name = restaurant.name ∧
      cart.items = cart_items ∧
      cart.subtotal = round2 subtotal ∧
      cart.delivery_fee = feeField (parse_delivery_fee restaurant.delivery_fee) ∧
      cart.total = round2 (subtotal + parse_delivery_fee restaurant.delivery_fee) := by
  unfold build_cart at h
  split at h
  next => simp at h
  next restaurant hrest =>
    dsimp only at h
    split at h
    next => simp at h
    next hlen =>
      split at h
      next => simp at h
      next cart_items subtotal hbuild =>
        refine ⟨restaurant, cart_items, subtotal, hrest, hbuild, ?_⟩
        injection h with h
        subst h
        simp

/-- What a successful `compute_cost_estimate` tells us about its pieces. -/
theorem compute_cost_estimate_ok_inv {db : DB} {req : CostEstimateRequest}
    {est : CostEstimateResponse} (h : compute_cost_estimate db req = .ok est) :
    ∃ restaurant subtotal,
      get_restaurant_by_id db req.restaurant_id = Option.some restaurant ∧
      sumCartItems (get_items_by_ids db (req.items.map CartItem.item_id)) req.items
        = .ok subtotal ∧
      est.restaurant_name = restaurant.name ∧
      est.subtotal = round2 subtotal ∧
      est.delivery_fee = feeField (parse_delivery_fee restaurant.delivery_fee) ∧
      est.estimated_tax = round2 (subtotal * tax_rate) ∧
      est.estimated_total =
        round2 (subtotal + parse_delivery_fee restaurant.delivery_fee + subtotal * tax_rate) := by
  unfold compute_cost_estimate at h
  split at h
  next => simp at h
  next restaurant hrest =>
    dsimp only at h
    split at h
    next => simp at h
    next hlen =>
      split at h
      next => simp at h
      next subtotal hsum =>
        refine ⟨restaurant, subtotal, hrest, hsum, ?_⟩
        injection h with h
        subst h
        simp

/-- What a successful `create_receipt` tells us about its pieces,
including the single appended store document. -/
theorem create_receipt_ok_inv {db : DB} {req : CreateReceiptRequest} {today now : String}
    {resp : ReceiptResponse} {db' : DB}
    (h : create_receipt db req today now = .ok (resp, db')) :
    ∃ restaurant receipt_items subtotal,
      get_restaurant_by_id db req.restaurant_id = Option.some restaurant ∧
      buildCartItems (get_items_by_ids db (req.items.map CartItem.item_id)) req.items
        = .ok (receipt_items, subtotal) ∧
      resp.receipt_id = generate_receipt_id db.receipts today ∧
      resp.subtotal = round2 subtotal ∧
      resp.delivery_fee = feeField (parse_delivery_fee restaurant.delivery_fee) ∧
      resp.tax = round2 (subtotal * tax_rate) ∧
      resp.total =
        round2 (subtotal + parse_delivery_fee restaurant.delivery_fee + subtotal * tax_rate) ∧
      ∃ stored : StoredReceipt,
        db'.receipts = db.receipts ++ [stored] ∧
        stored.receipt_id = generate_receipt_id db.receipts today := by
  unfold create_receipt at h
  split at h
  next => simp at h
  next restaurant hrest =>
    dsimp only at h
    split at h
    next => simp at h
    next hlen =>
      split at h
      next => simp at h
      next receipt_items subtotal hbuild =>
        refine ⟨restaurant, receipt_items, subtotal, hrest, hbuild, ?_⟩
        injection h with h
        injection h with h1 h2
        subst h1
        subst h2
        refine ⟨rfl, rfl, rfl, rfl, rfl, ?_⟩
        exact ⟨_, rfl, rfl⟩

/-! ## C10 — zero parsed delivery fee renders as null, never added -/

/-- C10: when the restaurant's parsed delivery fee is 0, every successful
cart, cost-estimate and receipt computation returns `delivery_fee = None`
(Python float truthiness), while the totals contain no fee contribution:
the cart total equals the cart subtotal, and the estimate/receipt total is
the rounding of (raw subtotal + raw tax) alone. -/
theorem c10_zero_fee_is_null (db : DB) (rid : String) (restaurant : Restaurant)
    (hr : get_restaurant_by_id db rid = Option.some restaurant)
    (hfee : parse_delivery_fee restaurant.delivery_fee = 0) :
    (∀ (items : List CartItem) (cart : CartResponse),
        build_cart db { restaurant_id := rid, items := items } = .ok cart →
        cart.delivery_fee = Option.none ∧ cart.total = cart.subtotal) ∧
    (∀ (items : List CartItem) (est : CostEstimateResponse),
        compute_cost_estimate db { restaurant_id := rid, items := items } = .ok est →
        est.delivery_fee = Option.none ∧
        ∃ S, est.subtotal = round2 S ∧ est.estimated_tax = round2 (S * tax_rate) ∧
             est.estimated_total = round2 (S + S * tax_rate)) ∧
    (∀ (req : CreateReceiptRequest) (today now : String) (resp : ReceiptResponse) (db' : DB),
        req.restaurant_id = rid →
        create_receipt db req today now = .ok (resp, db') →
        resp.delivery_fee = Option.none ∧
        ∃ S, resp.subtotal = round2 S ∧ resp.tax = round2 (S * tax_rate) ∧
             resp.total = round2 (S + S * tax_rate)) := by
  refine ⟨?_, ?_, ?_⟩
  · intro items cart hok
    obtain ⟨r', ci, S, hr', _, _, _, hsub, hdf, htot⟩ := build_cart_ok_inv hok
    rw [hr] at hr'
    injection hr' with hr'
    subst hr'
    rw [hfee] at hdf htot
    refine ⟨by simpa [feeField] using hdf, ?_⟩
    rw [htot, hsub, add_zero]
  · intro items est hok
    obtain ⟨r', S, hr', _, _, hsub, hdf, htax, htot⟩ := compute_cost_estimate_ok_inv hok
    rw [hr] at hr'
    injection hr' with hr'
    subst hr'
    rw [hfee] at hdf htot
    exact ⟨by simpa [feeField] using hdf, S, hsub, htax, by rw [htot, add_zero]⟩
  · intro req today now resp db' hreq hok
    obtain ⟨r', ri, S, hr', _, _, hsub, hdf, htax, htot, _⟩ := create_receipt_ok_inv hok
    rw [hreq, hr] at hr'
    injection hr' with hr'
    subst hr'
    rw [hfee] at hdf htot
    exact ⟨by simpa [feeField] using hdf, S, hsub, htax, by rw [htot, add_zero]⟩

/-- Fixture restaurant whose delivery-fee text parses to 0. -/
def zeroFeeRestaurant : Restaurant :=
  { _id := "rz", name := Option.some "ZeroFee",
    delivery_fee := .txt "$0 delivery fee, first order" }

/-- Fixture item priced 1. -/
def zeroFeeItem : Item := { _id := "x", name := Option.some "X", price := .num 1 }

/-- Fixture store for the zero-fee scenario. -/
def zeroFeeDb : DB := { restaurants := [zeroFeeRestaurant], items := [zeroFeeItem], receipts := [] }

/-- The cart `build_cart` returns in the zero-fee scenario. -/
def zeroFeeCart : CartResponse :=
  { restaurant_id := "rz", restaurant_name := Option.some "ZeroFee",
    items := [{ item_id := "x", name := Option.some "X", description := Option.none,
                price := 1, quantity := 1, subtotal := 1 }],
    subtotal := 1, delivery_fee := Option.none, total := 1 }

/-- Witness for `c10_zero_fee_is_null`: a concrete successful cart at a
restaurant whose fee text `"$0 delivery fee, first order"` parses to 0. -/
theorem c10_zero_fee_is_null_witness :
    build_cart zeroFeeDb { restaurant_id := "rz", items := [⟨"x", 1⟩] } = .ok zeroFeeCart ∧
    zeroFeeCart.delivery_fee = Option.none ∧ zeroFeeCart.total = zeroFeeCart.subtotal := by
  have hfee : parse_delivery_fee (FieldVal.txt "$0 delivery fee, first order") = 0 := by
    have h : firstNumberParts "$0 delivery fee, first order".data = Option.some (0, 0, 0) := by
      decide
    simp [parse_delivery_fee, firstNumber, h, ratOfParts]
  have hb : build_cart zeroFeeDb { restaurant_id := "rz", items := [⟨"x", 1⟩] } =
      .ok zeroFeeCart := by
    simp [build_cart, zeroFeeDb, zeroFeeRestaurant, zeroFeeItem, zeroFeeCart,
      get_restaurant_by_id, get_items_by_ids, buildCartItems, parse_price, feeField, hfee]
    norm_num [round2, round_eq]
  have h := (c10_zero_fee_is_null zeroFeeDb "rz" zeroFeeRestaurant
      (by simp [zeroFeeDb, get_restaurant_by_id, zeroFeeRestaurant])
      (by simpa [zeroFeeRestaurant] using hfee)).1
      [⟨"x", 1⟩] zeroFeeCart hb
  exact ⟨hb, h.1, h.2⟩

/-! ## C4 — conversation-history trimming -/

/-- The `i`-th fixture user message (distinct single-letter contents). -/
def c4msg (i : Nat) : ChatMsg :=
  { role := "user", content := Option.some (String.mk [Char.ofNat (97 + i)]) }

/-- 20 user messages, then one system message, then a final user message:
22 messages in total, with the system message after the 20th user
message. -/
def c4Input : List ChatMsg :=
  ((List.range 20).map c4msg) ++ [{ role := "system" }, c4msg 20]

/-- C4 counterexample: on `c4Input` the trimmed thread is *not* a sublist
of the original — the system message is moved in front of surviving
non-system messages that originally preceded it, so the surviving
messages do not appear in their original relative order, contrary to the
claim. -/
theorem c4_trim_counterexample :
    ¬ (trim_conversation_history c4Input 20).Sublist c4Input := by decide

/-- C4 (amended): trimming with window 20 keeps all system messages (in
order) and exactly the most recent 20 non-system messages (in order); a
list of at most 20 messages is returned unchanged, and a longer list is
reordered to all system messages first, followed by the surviving
non-system messages — so the original relative order is preserved within
each class but not, in general, between the two classes. -/
theorem c4_trim_window (msgs : List ChatMsg) :
    ((trim_conversation_history msgs 20).filter (fun m => m.role == "system") =
        msgs.filter (fun m => m.role == "system"))
  ∧ ((trim_conversation_history msgs 20).filter (fun m => !(m.role == "system")) =
        (msgs.filter (fun m => !(m.role == "system"))).drop
          ((msgs.filter (fun m => !(m.role == "system"))).length - 20))
  ∧ (msgs.length ≤ 20 → trim_conversation_history msgs 20 = msgs)
  ∧ (20 < msgs.length →
      trim_conversation_history msgs 20 =
        msgs.filter (fun m => m.role == "system") ++
          (msgs.filter (fun m => !(m.role == "system"))).drop
            ((msgs.filter (fun m => !(m.role == "system"))).length - 20)) := by
  by_cases hlen : msgs.length ≤ 20
  · have ht : trim_conversation_history msgs 20 = msgs := by
      unfold trim_conversation_history
      simp [hlen]
    have hns : (msgs.filter (fun m => !(m.role == "system"))).length ≤ 20 :=
      le_trans (List.length_filter_le _ _) hlen
    refine ⟨by rw [ht], ?_, fun _ => ht, fun h => absurd h (by omega)⟩
    rw [ht, Nat.sub_eq_zero_of_le hns, List.drop_zero]
  · have hgt : ¬ msgs.length ≤ 20 := hlen
    have ht : trim_conversation_history msgs 20 =
        msgs.filter (fun m => m.role == "system") ++
          (msgs.filter (fun m => !(m.role == "system"))).drop
            ((msgs.filter (fun m => !(m.role == "system"))).length - 20) := by
      unfold trim_conversation_history
      simp only [hgt, if_false]
      by_cases hns : 20 < (msgs.filter (fun m => !(m.role == "system"))).length
      · simp [hns]
      · have h0 : (msgs.filter (fun m => !(m.role == "system"))).length - 20 = 0 := by omega
        simp [hns, h0]
    have hsysfix : (msgs.filter (fun m => m.role == "system")).filter
        (fun m => m.role == "system") = msgs.filter (fun m => m.role == "system") := by
      rw [List.filter_filter]
      simp
    have hdropsub : ∀ m ∈ (msgs.filter (fun m => !(m.role == "system"))).drop
        ((msgs.filter (fun m => !(m.role == "system"))).length - 20),
          (m.role == "system") = false := by
      intro m hm
      have := List.mem_filter.mp (List.mem_of_mem_drop hm)
      simpa using this.2
    refine ⟨?_, ?_, fun h => absurd h hgt, fun _ => ht⟩
    · rw [ht, List.filter_append, hsysfix]
      have : (((msgs.filter (fun m => !(m.role == "system"))).drop
          ((msgs.filter (fun m => !(m.role == "system"))).length - 20)).filter
            (fun m => m.role == "system")) = [] := by
        rw [List.filter_eq_nil_iff]
        intro m hm
        simp [hdropsub m hm]
      rw [this, List.append_nil]
    · rw [ht, List.filter_append]
      have h1 : ((msgs.filter (fun m => m.role == "system")).filter
          (fun m => !(m.role == "system"))) = [] := by
        rw [List.filter_eq_nil_iff]
        intro m hm
        have := List.mem_filter.mp hm
        simpa using this.2
      have h2 : (((msgs.filter (fun m => !(m.role == "system"))).drop
          ((msgs.filter (fun m => !(m.role == "system"))).length - 20)).filter
            (fun m => !(m.role == "system"))) =
          ((msgs.filter (fun m => !(m.role == "system"))).drop
            ((msgs.filter (fun m => !(m.role == "system"))).length - 20)) := by
        rw [List.filter_eq_self]
        intro m hm
        simp [hdropsub m hm]
      rw [h1, h2, List.nil_append]

/-- The C4 witness thread: one system message followed by 25 user
messages. -/
def c4Witness : List ChatMsg := { role := "system" } :: (List.range 25).map c4msg

/-- Witness for `c4_trim_window`: a thread holding 25 non-system messages
keeps the system message plus exactly the most recent 20 non-system
messages. -/
theorem c4_trim_window_witness :
    trim_conversation_history c4Witness 20 =
      ({ role := "system" } : ChatMsg) :: ((List.range 25).map c4msg).drop 5 := by
  rw [(c4_trim_window c4Witness).2.2.2 (by decide)]
  decide

/-! ## C6 — restaurant name resolution -/

/-- C6: name resolution succeeds iff some stored restaurant name matches
the query case-insensitively (exactly or as a substring); an exact match
is preferred and, failing that, resolution falls back to the first
substring match in store order (`find_one` returns the first document);
when neither matches, the resolver fails with the not-found `ValueError`
message. -/
theorem c6_name_resolution (db : DB) (q : String) :
    ((∃ r, get_restaurant_by_name db q = Option.some r) ↔
        ∃ r ∈ db.restaurants, exactNameMatch q r = true ∨ subNameMatch q r = true)
  ∧ (∀ r, db.restaurants.find? (exactNameMatch q) = Option.some r →
        get_restaurant_by_name db q = Option.some r)
  ∧ (db.restaurants.find? (exactNameMatch q) = Option.none →
        get_restaurant_by_name db q = db.restaurants.find? (subNameMatch q))
  ∧ (∀ r, get_restaurant_by_name db q = Option.some r →
        r ∈ db.restaurants ∧ (exactNameMatch q r = true ∨ subNameMatch q r = true))
  ∧ ((¬ ∃ r ∈ db.restaurants, exactNameMatch q r = true ∨ subNameMatch q r = true) →
        resolve_restaurant_name_to_id db q =
          .error ("Restaurant '" ++ q ++ "' not found")) := by
  have hmain : ∀ r, get_restaurant_by_name db q = Option.some r →
      r ∈ db.restaurants ∧ (exactNameMatch q r = true ∨ subNameMatch q r = true) := by
    intro r h
    unfold get_restaurant_by_name at h
    cases hf : db.restaurants.find? (exactNameMatch q) with
    | some r' =>
      rw [hf] at h
      injection h with h
      subst h
      exact ⟨List.mem_of_find?_eq_some hf, Or.inl (List.find?_some hf)⟩
    | none =>
      rw [hf] at h
      exact ⟨List.mem_of_find?_eq_some h, Or.inr (List.find?_some h)⟩
  refine ⟨⟨?_, ?_⟩, ?_, ?_, hmain, ?_⟩
  · rintro ⟨r, h⟩
    exact ⟨r, (hmain r h).1, (hmain r h).2⟩
  · rintro ⟨r, hmem, hmatch⟩
    unfold get_restaurant_by_name
    cases hf : db.restaurants.find? (exactNameMatch q) with
    | some r' => exact ⟨r', rfl⟩
    | none =>
      have hsub : subNameMatch q r = true := by
        cases hmatch with
        | inl he => exact subNameMatch_of_exact he
        | inr hs => exact hs
      have hs : (db.restaurants.find? (subNameMatch q)).isSome :=
        List.find?_isSome.mpr ⟨r, hmem, hsub⟩
      obtain ⟨r2, hr2⟩ := Option.isSome_iff_exists.mp hs
      exact ⟨r2, hr2⟩
  · intro r h
    unfold get_restaurant_by_name
    rw [h]
  · intro h
    unfold get_restaurant_by_name
    rw [h]
  · intro hno
    have hg : get_restaurant_by_name db q = Option.none := by
      cases hg : get_restaurant_by_name db q with
      | none => rfl
      | some r => exact absurd ⟨r, (hmain r hg).1, (hmain r hg).2⟩ hno
    unfold resolve_restaurant_name_to_id
    rw [hg]

/-- Fixture restaurants for the C6 witness: two names share the substring
`"sushi"`. -/
def c6r1 : Restaurant := { _id := "c6a", name := Option.some "Pizza Palace" }

/-- First store-order restaurant matching the substring `"sushi"`. -/
def c6r2 : Restaurant := { _id := "c6b", name := Option.some "Sushi World" }

/-- Second store-order restaurant matching the substring `"sushi"`. -/
def c6r3 : Restaurant := { _id := "c6c", name := Option.some "Sushi Station" }

/-- Fixture store for the C6 witness. -/
def c6db : DB := { restaurants := [c6r1, c6r2, c6r3], items := [], receipts := [] }

/-- Witness for `c6_name_resolution`: the ambiguous mixed-case query
`"sUsHi"` resolves by substring to the first match in store order, and a
query matching nothing fails with the not-found message. -/
theorem c6_name_resolution_witness :
    get_restaurant_by_name c6db "sUsHi" = Option.some c6r2 ∧
    resolve_restaurant_name_to_id c6db "burger" =
      .error "Restaurant 'burger' not found" := by
  constructor
  · rw [(c6_name_resolution c6db "sUsHi").2.2.1 (by decide)]
    decide
  · exact (c6_name_resolution c6db "burger").2.2.2.2 (by decide)

/-! ## C7 — requests containing an id absent from the catalog -/

/-- When some requested id matches no catalog item (and catalog ids are
unique, as Mongo guarantees for `_id`), the `$in` fetch returns strictly
fewer documents than the id list has entries. -/
theorem get_items_by_ids_length_lt {db : DB} {ids : List String}
    (hdb : (db.items.map Item._id).Nodup)
    (hmiss : ∃ i ∈ ids, ∀ it ∈ db.items, it._id ≠ i) :
    (get_items_by_ids db ids).length < ids.length := by
  obtain ⟨i, hi, hnone⟩ := hmiss
  set l := (get_items_by_ids db ids).map Item._id with hl
  have hsubl : l.Sublist (db.items.map Item._id) :=
    (List.filter_sublist db.items).map Item._id
  have hnodup : l.Nodup := hdb.sublist hsubl
  have hmem : ∀ x ∈ l, x ∈ ids := by
    intro x hx
    rw [hl] at hx
    obtain ⟨it, hit, rfl⟩ := List.mem_map.mp hx
    have := (List.mem_filter.mp hit).2
    simpa using this
  have hnoti : i ∉ l := by
    intro hmemi
    rw [hl] at hmemi
    obtain ⟨it, hit, hid⟩ := List.mem_map.mp hmemi
    exact hnone it (List.mem_filter.mp hit).1 hid
  have hss : l.toFinset ⊆ ids.toFinset.erase i := by
    intro x hx
    rw [List.mem_toFinset] at hx
    rw [Finset.mem_erase]
    exact ⟨fun h => hnoti (h ▸ hx), List.mem_toFinset.mpr (hmem x hx)⟩
  have h1 : l.length = l.toFinset.card := (List.toFinset_card_of_nodup hnodup).symm
  have h2 : l.toFinset.card ≤ (ids.toFinset.erase i).card := Finset.card_le_card hss
  have h3 : (ids.toFinset.erase i).card = ids.toFinset.card - 1 :=
    Finset.card_erase_of_mem (List.mem_toFinset.mpr hi)
  have h4 : ids.toFinset.card ≤ ids.length := ids.toFinset_card_le
  have h5 : 0 < ids.toFinset.card :=
    Finset.card_pos.mpr ⟨i, List.mem_toFinset.mpr hi⟩
  have h6 : l.length = (get_items_by_ids db ids).length := by
    rw [hl, List.length_map]
  omega

/-- The fixture restaurant for C7. -/
def c7rest : Restaurant := { _id := "r7", name := Option.some "Seven" }

/-- The one item the C7 catalog holds. -/
def c7item : Item := { _id := "present", name := Option.some "P", price := .num 1 }

/-- C7 fixture store. -/
def c7db : DB := { restaurants := [c7rest], items := [c7item], receipts := [] }

/-- A cart request naming one present and one absent item id. -/
def c7req : BuildCartRequest :=
  { restaurant_id := "r7", items := [⟨"present", 1⟩, ⟨"absent", 1⟩] }

/-- C7 counterexample: the request containing the absent id `"absent"`
does fail with a 400, but its message is the generic
`"One or more items not found or invalid"` — the missing item's id does
not occur in it, contrary to the claim that the message names the missing
item. -/
theorem c7_missing_item_counterexample :
    build_cart c7db c7req = .error (.http 400 "One or more items not found or invalid") ∧
    listHasSub "absent".data "One or more items not found or invalid".data = false := by
  constructor
  · rfl
  · decide

/-- C7 (amended): a cart, cost-estimate, or receipt request whose id list
contains an id absent from the catalog fails with a 400 whose detail is
the generic `"One or more items not found or invalid"` (the per-item
`"Item <id> not found"` branch is unreachable while catalog `_id`s are
unique, because the batch length check fires first); no pricing is
returned, and `create_receipt` returns no updated store, so no receipt is
persisted. -/
theorem c7_missing_item_rejected (db : DB) (hdb : (db.items.map Item._id).Nodup) :
    (∀ (req : BuildCartRequest),
        (get_restaurant_by_id db req.restaurant_id).isSome →
        (∃ i ∈ req.items.map CartItem.item_id, ∀ it ∈ db.items, it._id ≠ i) →
        build_cart db req = .error (.http 400 "One or more items not found or invalid"))
  ∧ (∀ (req : CostEstimateRequest),
        (get_restaurant_by_id db req.restaurant_id).isSome →
        (∃ i ∈ req.items.map CartItem.item_id, ∀ it ∈ db.items, it._id ≠ i) →
        compute_cost_estimate db req =
          .error (.http 400 "One or more items not found or invalid"))
  ∧ (∀ (req : CreateReceiptRequest) (today now : String),
        (get_restaurant_by_id db req.restaurant_id).isSome →
        (∃ i ∈ req.items.map CartItem.item_id, ∀ it ∈ db.items, it._id ≠ i) →
        create_receipt db req today now =
          .error (.http 400 "One or more items not found or invalid")) := by
  refine ⟨?_, ?_, ?_⟩
  · intro req hrs hmiss
    obtain ⟨restaurant, hr⟩ := Option.isSome_iff_exists.mp hrs
    have hlt := get_items_by_ids_length_lt hdb hmiss
    unfold build_cart
    rw [hr]
    dsimp only
    rw [if_pos (by omega)]
  · intro req hrs hmiss
    obtain ⟨restaurant, hr⟩ := Option.isSome_iff_exists.mp hrs
    have hlt := get_items_by_ids_length_lt hdb hmiss
    unfold compute_cost_estimate
    rw [hr]
    dsimp only
    rw [if_pos (by omega)]
  · intro req today now hrs hmiss
    obtain ⟨restaurant, hr⟩ := Option.isSome_iff_exists.mp hrs
    have hlt := get_items_by_ids_length_lt hdb hmiss
    unfold create_receipt
    rw [hr]
    dsimp only
    rw [if_pos (by omega)]

/-- Witness for `c7_missing_item_rejected` at the concrete fixture
request (its receipt conjunct, exercising the no-persistence shape). -/
theorem c7_missing_item_rejected_witness :
    create_receipt c7db { restaurant_id := "r7", items := [⟨"present", 1⟩, ⟨"absent", 1⟩] }
        "20250101" "t0" =
      .error (.http 400 "One or more items not found or invalid") :=
  (c7_missing_item_rejected c7db (by decide)).2.2
    { restaurant_id := "r7", items := [⟨"present", 1⟩, ⟨"absent", 1⟩] }
    "20250101" "t0" (by decide) (by decide)

/-! ## C1 — `build_cart` and `compute_cost_estimate` agree -/

/-- When every cart item's id resolves in the fetched documents, the
detail-building loop of `build_cart` and the subtotal-only loop of
`compute_cost_estimate` both succeed, with the same subtotal. -/
theorem cartLoops_ok (items_data : List Item) (l : List CartItem)
    (h : ∀ ci ∈ l, ∃ it ∈ items_data, it._id = ci.item_id) :
    ∃ ds s, buildCartItems items_data l = .ok (ds, s) ∧
      sumCartItems items_data l = .ok s := by
  induction l with
  | nil => exact ⟨[], 0, rfl, rfl⟩
  | cons ci rest ih =>
    obtain ⟨it, hit, hid⟩ := h ci (by simp)
    have hfind : (items_data.find? (fun x => x._id == ci.item_id)).isSome :=
      List.find?_isSome.mpr ⟨it, hit, by simp [hid]⟩
    obtain ⟨it0, hit0⟩ := Option.isSome_iff_exists.mp hfind
    obtain ⟨ds, s, hb, hs⟩ := ih (fun x hx => h x (by simp [hx]))
    exact ⟨{ item_id := ci.item_id, name := it0.name, description := it0.description,
             price := parse_price it0.price, quantity := ci.quantity,
             subtotal := parse_price it0.price * (ci.quantity : ℚ) } :: ds,
           parse_price it0.price * (ci.quantity : ℚ) + s,
           by simp [buildCartItems, hit0, hb],
           by simp [sumCartItems, hit0, hs]⟩

/-- When catalog ids are unique, the requested ids are pairwise distinct
and every one of them is present, the `$in` fetch returns exactly one
document per requested id. -/
theorem get_items_by_ids_length_eq {db : DB} {ids : List String}
    (hdb : (db.items.map Item._id).Nodup) (hids : ids.Nodup)
    (hall : ∀ i ∈ ids, ∃ it ∈ db.items, it._id = i) :
    (get_items_by_ids db ids).length = ids.length := by
  set l := (get_items_by_ids db ids).map Item._id with hl
  have hsubl : l.Sublist (db.items.map Item._id) :=
    (List.filter_sublist db.items).map Item._id
  have hnodup : l.Nodup := hdb.sublist hsubl
  have hmem : ∀ x, x ∈ l ↔ x ∈ ids := by
    intro x
    constructor
    · intro hx
      rw [hl] at hx
      obtain ⟨it, hit, rfl⟩ := List.mem_map.mp hx
      have := (List.mem_filter.mp hit).2
      simpa using this
    · intro hx
      obtain ⟨it, hit, rfl⟩ := hall x hx
      rw [hl]
      exact List.mem_map.mpr ⟨it, List.mem_filter.mpr ⟨hit, by simpa using hx⟩, rfl⟩
  have hperm : l.Perm ids := by
    refine List.perm_of_nodup_nodup_toFinset_eq hnodup hids ?_
    ext x
    simp [List.mem_toFinset, hmem x]
  have := hperm.length_eq
  rw [hl, List.length_map] at this
  exact this

/-- C1: on the same restaurant and item/quantity list (all quantities ≥ 1,
all ids present in the catalog, request ids distinct, catalog ids unique),
`build_cart` and `compute_cost_estimate` both succeed with the same
subtotal `round2 S` and the same delivery fee, and the estimate
additionally carries `estimated_tax = round2 (S × 0.085)`, where `S` is
the shared pre-rounding subtotal (every money field of both responses is
rounded to 2 decimals). -/
theorem c1_cart_estimate_agree (db : DB) (rid : String) (items : List CartItem)
    (hdb : (db.items.map Item._id).Nodup)
    (_hq : ∀ ci ∈ items, 1 ≤ ci.quantity)
    (hrs : (get_restaurant_by_id db rid).isSome)
    (hnd : (items.map CartItem.item_id).Nodup)
    (hex : ∀ ci ∈ items, ∃ it ∈ db.items, it._id = ci.item_id) :
    ∃ cart est S,
      build_cart db { restaurant_id := rid, items := items } = .ok cart ∧
      compute_cost_estimate db { restaurant_id := rid, items := items } = .ok est ∧
      cart.subtotal = round2 S ∧ est.subtotal = round2 S ∧
      cart.delivery_fee = est.delivery_fee ∧
      est.estimated_tax = round2 (S * tax_rate) := by
  obtain ⟨restaurant, hr⟩ := Option.isSome_iff_exists.mp hrs
  have hall : ∀ i ∈ items.map CartItem.item_id, ∃ it ∈ db.items, it._id = i := by
    intro i hi
    obtain ⟨ci, hci, rfl⟩ := List.mem_map.mp hi
    exact hex ci hci
  have hlen := get_items_by_ids_length_eq hdb hnd hall
  have hfound : ∀ ci ∈ items,
      ∃ it ∈ get_items_by_ids db (items.map CartItem.item_id), it._id = ci.item_id := by
    intro ci hci
    obtain ⟨it, hit, hid⟩ := hex ci hci
    refine ⟨it, List.mem_filter.mpr ⟨hit, ?_⟩, hid⟩
    rw [hid]
    exact List.elem_eq_true_of_mem (List.mem_map.mpr ⟨ci, hci, rfl⟩)
  obtain ⟨ds, S, hb, hs⟩ := cartLoops_ok _ items hfound
  have hbc : build_cart db { restaurant_id := rid, items := items } =
      .ok { restaurant_id := rid, restaurant_name := restaurant.name, items := ds,
            subtotal := round2 S,
            delivery_fee := feeField (parse_delivery_fee restaurant.delivery_fee),
            total := round2 (S + parse_delivery_fee restaurant.delivery_fee) } := by
    unfold build_cart
    rw [hr]
    dsimp only
    rw [if_neg (by omega), hb]
  have hest : compute_cost_estimate db { restaurant_id := rid, items := items } =
      .ok { restaurant_id := rid, restaurant_name := restaurant.name,
            subtotal := round2 S,
            delivery_fee := feeField (parse_delivery_fee restaurant.delivery_fee),
            estimated_total :=
              round2 (S + parse_delivery_fee restaurant.delivery_fee + S * tax_rate),
            estimated_tax := round2 (S * tax_rate) } := by
    unfold compute_cost_estimate
    rw [hr]
    dsimp only
    rw [if_neg (by omega), hs]
  exact ⟨_, _, S, hbc, hest, rfl, rfl, rfl, rfl⟩

/-- Witness for `c1_cart_estimate_agree` on the concrete fixture store
(item A × 2, item B × 1). -/
theorem c1_cart_estimate_agree_witness :
    ∃ cart est S,
      build_cart c9db { restaurant_id := "rest1", items := [⟨"itemA", 2⟩, ⟨"itemB", 1⟩] }
        = .ok cart ∧
      compute_cost_estimate c9db
        { restaurant_id := "rest1", items := [⟨"itemA", 2⟩, ⟨"itemB", 1⟩] } = .ok est ∧
      cart.subtotal = round2 S ∧ est.subtotal = round2 S ∧
      cart.delivery_fee = est.delivery_fee ∧
      est.estimated_tax = round2 (S * tax_rate) :=
  c1_cart_estimate_agree c9db "rest1" [⟨"itemA", 2⟩, ⟨"itemB", 1⟩]
    (by decide) (by decide) (by decide) (by decide) (by decide)

/-! ## C5 — receipt ids are day-scoped, sequential and unique -/

/-- Strings are equal when their character lists are. -/
theorem stringDataInj {s t : String} (h : s.data = t.data) : s = t := by
  cases s
  cases t
  exact congrArg String.mk h

/-- Appending the freshly generated id raises the day's count by one. -/
theorem countTodayIds_append_gen (ids : List String) (d : String) :
    countTodayIds (ids ++ [genIdFromIds d ids]) d = countTodayIds ids d + 1 := by
  have hstart : listStarts (dayPre d).data (genIdFromIds d ids).data = true := by
    unfold genIdFromIds
    rw [String.data_append]
    exact listStarts_append_self _ _
  unfold countTodayIds
  rw [List.filter_append, List.length_append]
  simp [hstart]

/-- After `n` creations on a day that started empty, the day's count is
`n`. -/
theorem countTodayIds_idRun (d : String) (s : List String)
    (h0 : countTodayIds s d = 0) : ∀ n, countTodayIds (idRun d s n) d = n := by
  intro n
  induction n with
  | zero => simpa [idRun] using h0
  | succ k ih =>
    show countTodayIds (idRun d s k ++ [genIdFromIds d (idRun d s k)]) d = k + 1
    rw [countTodayIds_append_gen, ih]

/-- The id of the `(k+1)`-th receipt of a day that started empty. -/
theorem createdId_eq (d : String) (s : List String) (h0 : countTodayIds s d = 0)
    (k : Nat) : createdId d s k = dayPre d ++ String.mk (zfill 3 (natDigits (k + 1))) := by
  unfold createdId genIdFromIds
  rw [countTodayIds_idRun d s h0 k]

/-- The decimal value of a digit list with one more digit appended. -/
theorem valDigits_append_singleton (ds : List Char) (c : Char) :
    valDigits (ds ++ [c]) = valDigits ds * 10 + (c.toNat - 48) := by
  unfold valDigits
  rw [List.foldl_append]
  rfl

/-- `Char.ofNat` round-trips on decimal digit codes. -/
theorem charDigit_toNat {n : Nat} (h : n < 10) : (Char.ofNat (48 + n)).toNat = 48 + n := by
  interval_cases n <;> decide

/-- `valDigits` decodes `natDigits`. -/
theorem valDigits_natDigits (n : Nat) : valDigits (natDigits n) = n := by
  induction n using Nat.strong_induction_on with
  | _ n ih =>
    unfold natDigits
    split
    next h =>
      show valDigits [Char.ofNat (48 + n)] = n
      unfold valDigits
      simp [charDigit_toNat h]
    next h =>
      rw [valDigits_append_singleton,
        ih (n / 10) (Nat.div_lt_self (by omega) (by norm_num))]
      have h10 : n % 10 < 10 := Nat.mod_lt _ (by norm_num)
      rw [charDigit_toNat h10]
      omega

/-- Leading-zero padding does not change the decoded value. -/
theorem valDigits_zfill (w : Nat) (ds : List Char) :
    valDigits (zfill w ds) = valDigits ds := by
  unfold zfill
  generalize (w - ds.length) = k
  induction k with
  | zero => rfl
  | succ m ih =>
    rw [List.replicate_succ, List.cons_append]
    show valDigits ('0' :: (List.replicate m '0' ++ ds)) = valDigits ds
    unfold valDigits at ih ⊢
    simp only [List.foldl_cons]
    have h0 : (0 * 10 + ('0'.toNat - 48)) = 0 := by decide
    rw [h0]
    exact ih

/-- The zero-padded decimal rendering of the sequence number is
injective. -/
theorem padSeq_inj {m n : Nat}
    (h : String.mk (zfill 3 (natDigits m)) = String.mk (zfill 3 (natDigits n))) :
    m = n := by
  have hd : zfill 3 (natDigits m) = zfill 3 (natDigits n) := congrArg String.data h
  have hv := congrArg valDigits hd
  rwa [valDigits_zfill, valDigits_zfill, valDigits_natDigits, valDigits_natDigits] at hv

/-- C5: every successful `create_receipt` stamps the receipt with
`generate_receipt_id` evaluated against the prior store and appends
exactly that document; and on any day whose count starts at zero, the
`(k+1)`-th receipt created gets id `RCP-<day>-<k+1 zero-padded to 3>`, so
ids within the day are strictly increasing in sequence number and
pairwise distinct. -/
theorem c5_receipt_ids :
    (∀ (db : DB) (req : CreateReceiptRequest) (today now : String)
        (resp : ReceiptResponse) (db' : DB),
        create_receipt db req today now = .ok (resp, db') →
        resp.receipt_id = generate_receipt_id db.receipts today ∧
        ∃ stored, db'.receipts = db.receipts ++ [stored] ∧
          stored.receipt_id = generate_receipt_id db.receipts today)
  ∧ (∀ (d : String) (s : List String), countTodayIds s d = 0 →
      ∀ k, createdId d s k = dayPre d ++ String.mk (zfill 3 (natDigits (k + 1))) ∧
        ∀ j, j < k → createdId d s j ≠ createdId d s k) := by
  constructor
  · intro db req today now resp db' h
    obtain ⟨_, _, _, _, _, hrid, _, _, _, _, hstored⟩ := create_receipt_ok_inv h
    exact ⟨hrid, hstored⟩
  · intro d s h0 k
    refine ⟨createdId_eq d s h0 k, ?_⟩
    intro j hj heq
    rw [createdId_eq d s h0 j, createdId_eq d s h0 k] at heq
    have hdata := congrArg String.data heq
    rw [String.data_append, String.data_append] at hdata
    have htail := List.append_cancel_left hdata
    have := padSeq_inj (stringDataInj htail)
    omega

/-- The C5 witness request against the zero-fee fixture store. -/
def c5req : CreateReceiptRequest := { restaurant_id := "rz", items := [⟨"x", 1⟩] }

/-- The stored document the C5 witness creation writes. -/
def c5stored : StoredReceipt :=
  { receipt_id := generate_receipt_id [] "20250101", restaurant_id := "rz",
    restaurant_name := Option.some "ZeroFee",
    items := [{ item_id := "x", name := Option.some "X", description := Option.none,
                price := 1, quantity := 1, subtotal := 1 }],
    subtotal := 1, delivery_fee := Option.none, tax := 0.09, total := 1.09,
    delivery_id := Option.none, customer_name := Option.none,
    customer_email := Option.none, customer_phone := Option.none,
    delivery_address := Option.none, created_at := "t0" }

/-- The response the C5 witness creation returns. -/
def c5resp : ReceiptResponse :=
  { _id := String.mk (natDigits 0), receipt_id := generate_receipt_id [] "20250101",
    restaurant_id := "rz", restaurant_name := Option.some "ZeroFee",
    items := [{ item_id := "x", name := Option.some "X", description := Option.none,
                price := 1, quantity := 1, subtotal := 1 }],
    subtotal := 1, delivery_fee := Option.none, tax := 0.09, total := 1.09,
    delivery_id := Option.none, customer_name := Option.none,
    customer_email := Option.none, customer_phone := Option.none,
    delivery_address := Option.none, created_at := "t0" }

/-- Witness for `c5_receipt_ids`: a concrete successful creation carries
the generated id, and on an empty day the first two generated ids are
`RCP-20250101-001` and `RCP-20250101-002`, distinct. -/
theorem c5_receipt_ids_witness :
    c5resp.receipt_id = generate_receipt_id zeroFeeDb.receipts "20250101" ∧
    createdId "20250101" [] 1 = dayPre "20250101" ++ String.mk (zfill 3 (natDigits 2)) ∧
    createdId "20250101" [] 0 ≠ createdId "20250101" [] 1 := by
  have hfee : parse_delivery_fee (FieldVal.txt "$0 delivery fee, first order") = 0 := by
    have h : firstNumberParts "$0 delivery fee, first order".data = Option.some (0, 0, 0) := by
      decide
    simp [parse_delivery_fee, firstNumber, h, ratOfParts]
  have hcr : create_receipt zeroFeeDb c5req "20250101" "t0" =
      .ok (c5resp, { zeroFeeDb with receipts := [c5stored] }) := by
    simp [create_receipt, zeroFeeDb, zeroFeeRestaurant, zeroFeeItem, c5req, c5resp,
      c5stored, get_restaurant_by_id, get_items_by_ids, buildCartItems, parse_price,
      feeField, hfee, tax_rate, generate_receipt_id]
    norm_num [round2, round_eq]
  have h2 := c5_receipt_ids.2 "20250101" [] (by decide) 1
  exact ⟨(c5_receipt_ids.1 zeroFeeDb c5req "20250101" "t0" c5resp
            { zeroFeeDb with receipts := [c5stored] } hcr).1,
         h2.1, h2.2 0 (by decide)⟩

/-! ## C3 — the dispatcher never raises -/

/-- C3: `execute_function_call` is total by construction (the embedding of
"never raises an exception"); an unknown tool name yields the structured
`Unknown function` error; each branch's missing-argument checks yield
structured error dicts (Python truthiness: absent, empty-string and zero
arguments all count as missing); and exceptions of underlying operations
are caught and converted — an `HTTPException` becomes
`{error, error_type: http_exception, status_code}` and any other
exception `{error: Unexpected error: ..., error_type: unexpected_error}`.
The store is returned unchanged on every error. -/
theorem c3_dispatcher_never_raises (db : DB) (dd : DDCall → Except Err DDResp)
    (today now : String) (args : FnArgs) :
    (∀ name, name ∉ toolNames →
        execute_function_call db dd today now name args =
          (.err ("Unknown function: " ++ name) Option.none Option.none, db))
  ∧ (strGiven args.restaurant_name = false →
        execute_function_call db dd today now "get_restaurant_menu" args =
          (.err "restaurant_name is required" Option.none Option.none, db))
  ∧ (strGiven args.restaurant_name = false ∨ strGiven args.item_name = false →
        execute_function_call db dd today now "get_menu_item" args =
          (.err "restaurant_name and item_name are required" Option.none Option.none, db))
  ∧ (∀ name ∈ ["build_cart", "compute_cost_estimate", "create_receipt"],
        strGiven args.restaurant_name = false ∨ args.items = [] →
        execute_function_call db dd today now name args =
          (.err "restaurant_name and items are required" Option.none Option.none, db))
  ∧ (strGiven args.external_delivery_id = false →
        execute_function_call db dd today now "track_delivery" args =
          (.err "external_delivery_id is required" Option.none Option.none, db))
  ∧ (∀ e, mkDDRequest args = .error e →
        execute_function_call db dd today now "create_delivery" args =
          (.err ("Invalid request parameters: " ++ e) Option.none Option.none, db))
  ∧ (∀ rn st det, args.restaurant_name = Option.some rn → rn.isEmpty = false →
        get_restaurant_menu_by_name db rn = .error (.http st det) →
        execute_function_call db dd today now "get_restaurant_menu" args =
          (.err det (Option.some "http_exception") (Option.some st), db))
  ∧ (∀ edid st det, args.external_delivery_id = Option.some edid → edid.isEmpty = false →
        dd (.track edid) = .error (.http st det) →
        execute_function_call db dd today now "track_delivery" args =
          (.err det (Option.some "http_exception") (Option.some st), db))
  ∧ (∀ edid m, args.external_delivery_id = Option.some edid → edid.isEmpty = false →
        dd (.track edid) = .error (.exn m) →
        execute_function_call db dd today now "track_delivery" args =
          (.err ("Unexpected error: " ++ m) (Option.some "unexpected_error") Option.none,
           db)) := by
  refine ⟨?_, ?_, ?_, ?_, ?_, ?_, ?_, ?_, ?_⟩
  · intro name hn
    simp only [toolNames, List.mem_cons, List.not_mem_nil, or_false, not_or] at hn
    obtain ⟨h1, h2, h3, h4, h5, h6, h7, h8⟩ := hn
    simp [execute_function_call, h1, h2, h3, h4, h5, h6, h7, h8]
  · intro hg
    cases hrn : args.restaurant_name with
    | none => simp [execute_function_call, hrn]
    | some rn =>
      have he : rn.isEmpty = true := by
        rw [hrn] at hg
        simpa [strGiven] using hg
      simp [execute_function_call, hrn, he]
  · intro hor
    have hcond : (!(strGiven args.restaurant_name) || !(strGiven args.item_name)) = true := by
      rcases hor with h | h <;> simp [h]
    simp [execute_function_call, hcond]
  · intro name hname hor
    have hcond : (!(strGiven args.restaurant_name) || args.items.isEmpty) = true := by
      rcases hor with h | h <;> simp [h]
    fin_cases hname <;> simp [execute_function_call, hcond]
  · intro hg
    cases hid : args.external_delivery_id with
    | none => simp [execute_function_call, hid]
    | some edid =>
      have he : edid.isEmpty = true := by
        rw [hid] at hg
        simpa [strGiven] using hg
      simp [execute_function_call, hid, he]
  · intro e hmk
    simp [execute_function_call, hmk]
  · intro rn st det hrn hne hsvc
    simp [execute_function_call, hrn, hne, hsvc]
  · intro edid st det hid hne hdd
    simp [execute_function_call, hid, hne, hdd]
  · intro edid m hid hne hdd
    simp [execute_function_call, hid, hne, hdd]

/-- The empty fixture store. -/
def db0 : DB := { restaurants := [], items := [], receipts := [] }

/-- A DoorDash client that always fails with an HTTP 503. -/
def dd0 : DDCall → Except Err DDResp := fun _ => .error (.http 503 "dd down")

/-- Arguments carrying a restaurant name matching nothing and a delivery
id. -/
def c3args : FnArgs :=
  { restaurant_name := Option.some "Nowhere", external_delivery_id := Option.some "D-1" }

/-- Witness for `c3_dispatcher_never_raises`: an unknown tool, a
missing-argument call, a name-resolution failure (404 converted to a
structured `http_exception` error) and an upstream DoorDash failure, all
returned as error dicts with the store unchanged. -/
theorem c3_dispatcher_never_raises_witness :
    execute_function_call db0 dd0 "d" "t" "frobnicate" {} =
      (.err "Unknown function: frobnicate" Option.none Option.none, db0) ∧
    execute_function_call db0 dd0 "d" "t" "build_cart" {} =
      (.err "restaurant_name and items are required" Option.none Option.none, db0) ∧
    execute_function_call db0 dd0 "d" "t" "get_restaurant_menu" c3args =
      (.err "Restaurant 'Nowhere' not found" (Option.some "http_exception")
        (Option.some 404), db0) ∧
    execute_function_call db0 dd0 "d" "t" "track_delivery" c3args =
      (.err "dd down" (Option.some "http_exception") (Option.some 503), db0) := by
  have h := c3_dispatcher_never_raises db0 dd0 "d" "t" c3args
  have h0 := c3_dispatcher_never_raises db0 dd0 "d" "t" {}
  refine ⟨h0.1 "frobnicate" (by decide), ?_, ?_, ?_⟩
  · exact h0.2.2.2.1 "build_cart" (by simp) (Or.inl rfl)
  · exact h.2.2.2.2.2.2.1 "Nowhere" 404 "Restaurant 'Nowhere' not found" rfl rfl rfl
  · exact h.2.2.2.2.2.2.2.1 "D-1" 503 "dd down" rfl rfl rfl

/-! ## C2 — the orchestration loop is bounded and falls back in order -/

/-- An element delivered by `getLast?` is a member. -/
theorem mem_of_getLast?_eq_some {α : Type} {l : List α} {a : α}
    (h : l.getLast? = Option.some a) : a ∈ l := by
  obtain ⟨hne, ha⟩ := List.mem_getLast?_eq_getLast (Option.mem_def.mpr h)
  rw [ha]
  exact List.getLast_mem hne

/-- `find?` returns the head of the filtered list. -/
theorem find?_eq_head?_filter {α : Type} (p : α → Bool) (l : List α) :
    l.find? p = (l.filter p).head? := by
  induction l with
  | nil => rfl
  | cons a t ih =>
    cases h : p a with
    | true => simp [List.find?_cons, List.filter_cons, h]
    | false =>
      simp only [List.find?_cons, List.filter_cons, h]
      exact ih

/-- Scanning a reversed list for the first hit finds the last hit of the
original list. -/
theorem reverse_find?_eq_getLast?_filter {α : Type} (p : α → Bool) (l : List α) :
    l.reverse.find? p = (l.filter p).getLast? := by
  rw [find?_eq_head?_filter, List.filter_reverse, List.head?_reverse]

/-- `lastAssistantText` is the content of the last assistant message with
non-empty text. -/
theorem lastAssistantText_eq (msgs : List ChatMsg) :
    lastAssistantText msgs =
      match (msgs.filter isAssistantText).getLast? with
      | Option.some m => m.content
      | Option.none => Option.none := by
  unfold lastAssistantText
  rw [reverse_find?_eq_getLast?_filter]

/-- The model-call counter never exceeds the fuel. -/
theorem runLoop_count_le (oracle : List ChatMsg → ModelResp)
    (exec : ToolCallReq → FCResult) :
    ∀ fuel msgs, (runLoop oracle exec fuel msgs).2.2 ≤ fuel := by
  intro fuel
  induction fuel with
  | zero => intro msgs; simp [runLoop]
  | succ k ih =>
    intro msgs
    unfold runLoop
    dsimp only
    split
    · simp
    · simpa using Nat.succ_le_succ (ih _)

/-- A text-only model response ends the loop with that text after a
single model call. -/
theorem runLoop_text (oracle : List ChatMsg → ModelResp) (exec : ToolCallReq → FCResult)
    (fuel : Nat) (msgs : List ChatMsg) (h : (oracle msgs).toolCalls = []) :
    runLoop oracle exec (fuel + 1) msgs =
      (msgs ++ [{ role := "assistant", content := (oracle msgs).content,
                  hasToolCalls := false }],
       (oracle msgs).content.getD "", 1) := by
  unfold runLoop
  simp [h]

/-- A model that always requests tools exhausts the whole budget and
leaves `final_response` empty. -/
theorem runLoop_all_tools (oracle : List ChatMsg → ModelResp)
    (exec : ToolCallReq → FCResult) (h : ∀ m, (oracle m).toolCalls ≠ []) :
    ∀ fuel msgs, (runLoop oracle exec fuel msgs).2.1 = "" ∧
      (runLoop oracle exec fuel msgs).2.2 = fuel := by
  intro fuel
  induction fuel with
  | zero => intro msgs; simp [runLoop]
  | succ k ih =>
    intro msgs
    unfold runLoop
    dsimp only
    have hne : (oracle msgs).toolCalls.isEmpty = false := by
      rw [Bool.eq_false_iff]
      intro hc
      exact h msgs (List.isEmpty_iff.mp hc)
    rw [hne]
    simpa using ih _

/-- C2: the orchestration loop makes at most 10 model calls and (being a
fuel recursion) always terminates; a model response carrying (non-empty)
plain text and no tool calls ends the run with exactly that text; a model
that always requests tools is stopped at exactly the iteration cap with an
empty `final_response`, and whenever `final_response` is empty the
returned text follows the fallback priority: the last assistant message
with non-empty text, else `I encountered an error: ` plus the last
tool-result error, else the generic apology.  (An *empty* text response
also falls through to the same fallback chain — hence the `t ≠ ""`
hypothesis.) -/
theorem c2_orchestration_loop (oracle : List ChatMsg → ModelResp)
    (exec : ToolCallReq → FCResult) (msgs : List ChatMsg) :
    (runLoop oracle exec max_iterations msgs).2.2 ≤ 10
  ∧ (∀ t, (oracle msgs).toolCalls = [] → (oracle msgs).content = Option.some t →
      t ≠ "" → agent_chat_response oracle exec msgs = t)
  ∧ ((∀ m, (oracle m).toolCalls ≠ []) →
      (runLoop oracle exec max_iterations msgs).2.2 = 10 ∧
      agent_chat_response oracle exec msgs =
        finalizeResponse (runLoop oracle exec max_iterations msgs).1 "")
  ∧ (∀ m : List ChatMsg,
      match (m.filter isAssistantText).getLast? with
      | Option.some a => finalizeResponse m "" = a.content.getD ""
      | Option.none =>
        match (toolErrors m).getLast? with
        | Option.some e => finalizeResponse m "" = "I encountered an error: " ++ e
        | Option.none => finalizeResponse m "" = apologyText) := by
  refine ⟨runLoop_count_le oracle exec max_iterations msgs, ?_, ?_, ?_⟩
  · intro t h1 h2 h3
    have hrun := runLoop_text oracle exec 9 msgs h1
    have hempty : t.isEmpty = false := by
      rw [Bool.eq_false_iff]
      intro hc
      exact h3 ((String.isEmpty_iff t).mp hc)
    unfold agent_chat_response
    rw [show max_iterations = 9 + 1 from rfl, hrun]
    simp [h2, finalizeResponse, hempty]
  · intro hall
    have h := runLoop_all_tools oracle exec hall max_iterations msgs
    refine ⟨h.2, ?_⟩
    unfold agent_chat_response
    dsimp only
    rw [h.1]
  · intro m
    cases hl : (m.filter isAssistantText).getLast? with
    | some a =>
      have hmem : a ∈ m.filter isAssistantText := mem_of_getLast?_eq_some hl
      have hp : isAssistantText a = true := (List.mem_filter.mp hmem).2
      have hc : ∃ c, a.content = Option.some c ∧ c.isEmpty = false := by
        unfold isAssistantText at hp
        cases hac : a.content with
        | none => rw [hac] at hp; simp at hp
        | some c =>
          rw [hac] at hp
          simp at hp
          exact ⟨c, rfl, by simpa using hp.2⟩
      obtain ⟨c, hac, hcne⟩ := hc
      show finalizeResponse m "" = a.content.getD ""
      unfold finalizeResponse
      rw [if_pos (show ("" : String).isEmpty = true by decide), lastAssistantText_eq, hl, hac]
      simp [hac]
    | none =>
      cases he : (toolErrors m).getLast? with
      | some e =>
        show finalizeResponse m "" = "I encountered an error: " ++ e
        unfold finalizeResponse
        rw [if_pos (show ("" : String).isEmpty = true by decide), lastAssistantText_eq, hl, he]
      | none =>
        show finalizeResponse m "" = apologyText
        unfold finalizeResponse
        rw [if_pos (show ("" : String).isEmpty = true by decide), lastAssistantText_eq, hl, he]

/-- A model that answers `"hello"` with no tool calls. -/
def textOracle : List ChatMsg → ModelResp := fun _ => { content := Option.some "hello" }

/-- A model that requests a tool call on every turn. -/
def toolOracle : List ChatMsg → ModelResp :=
  fun _ => { toolCalls := [{ id := "1", name := "list_restaurants" }] }

/-- A tool executor that always fails (dispatcher error shape). -/
def execErr : ToolCallReq → FCResult := fun _ => .err "boom"

/-- Witness for `c2_orchestration_loop`: the text oracle's reply is
returned verbatim, and the always-tool oracle is stopped at exactly 10
model calls. -/
theorem c2_orchestration_loop_witness :
    agent_chat_response textOracle execErr [] = "hello" ∧
    (runLoop toolOracle execErr max_iterations []).2.2 = 10 := by
  constructor
  · exact (c2_orchestration_loop textOracle execErr []).2.1 "hello" rfl rfl (by decide)
  · exact ((c2_orchestration_loop toolOracle execErr []).2.2.1
      (fun m => by simp [toolOracle])).1

end DaNomNoms
